import Mathlib

set_option maxHeartbeats 1000000
set_option maxRecDepth 10000

/-!
Verification development for the LLMExtractor repository.

The repository extracts procurement-contract data from PDF text via an LLM,
repairs/normalizes the returned JSON, parses it into domain objects
(`repoSQL.ContractParser`), and persists it into a PostgreSQL schema
(`repoSQL.ContractRepository`, `repoSQL.generate_sql_script`).

The embedding below models text as `List Char` (`Str`), JSON values as an
inductive `Json`, the Python `json.loads` routine as a fuel-indexed
recursive-descent function `pyJsonParse`, and the database as an explicit
record of tables with state-passing operations.  Machine-level details that
the source delegates to external systems (the LLM call, psycopg2 wire
protocol) are out of scope; SQL statements are modelled by their semantics
on the table records (in particular, an SQL equality comparison against a
NULL parameter never matches, as in PostgreSQL).
-/

/-- Text is modelled as a list of characters (Python `str`). -/
abbrev Str := List Char

/-- The whitespace characters stripped by the texts of this repository and
skipped by the JSON grammar: space, tab, newline, carriage return.
(Python `str.strip` also strips rarer whitespace such as form feed; none of
the modelled texts involve those.) -/
def isWsChar (c : Char) : Bool := c = ' ' || c = '\t' || c = '\n' || c = '\r'

/-- Left part of Python `str.strip()`. -/
def stripL (l : Str) : Str := l.dropWhile isWsChar

/-- Right part of Python `str.strip()`. -/
def stripR (l : Str) : Str := (l.reverse.dropWhile isWsChar).reverse

/-- Python `str.strip()`. -/
def pystrip (l : Str) : Str := stripR (stripL l)

/-- Python `str.rstrip()`. -/
def pyrstrip (l : Str) : Str := stripR l

/-- Python `needle in hay` on strings: some suffix of `hay` starts with
`needle`. -/
def hasSub (hay pat : Str) : Bool :=
  pat.isPrefixOf hay ||
    match hay with
    | [] => false
    | _ :: t => hasSub t pat

/-- Fuel-indexed core of `replaceAll` (the fuel is the input length, each
step consumes at least one character). -/
def replaceAllF : Nat → Str → Str → Str → Str
  | 0, l, _, _ => l
  | fuel + 1, l, pat, repl =>
    match l with
    | [] => []
    | c :: t =>
      if pat ≠ [] ∧ pat.isPrefixOf (c :: t) then
        repl ++ replaceAllF fuel ((c :: t).drop pat.length) pat repl
      else
        c :: replaceAllF fuel t pat repl

/-- Python `str.replace(pat, repl)` (all occurrences, left to right).
A degenerate empty pattern is returned unchanged (the repository only
replaces nonempty fence markers). -/
def replaceAll (l pat repl : Str) : Str := replaceAllF l.length l pat repl

/-- Python `str.count` of a single character. -/
def countChar (l : Str) (c : Char) : Nat := l.countP (fun x => x = c)

/-- Python ASCII `str.lower()` (filenames in this repository are ASCII). -/
def pyLower (l : Str) : Str := l.map Char.toLower

/-- Decimal digit character. -/
def digitChar (n : Nat) : Char := Char.ofNat (48 + n)

/-- Fuel-indexed core of `natRepr` (a number below `10^fuel` needs at most
`fuel` digits). -/
def natReprF : Nat → Nat → Str
  | 0, _ => []
  | fuel + 1, n =>
    if n < 10 then [digitChar n]
    else natReprF fuel (n / 10) ++ [digitChar (n % 10)]

/-- Python `str(n)` for a nonnegative integer (decimal representation). -/
def natRepr (n : Nat) : Str := natReprF (n + 1) n

/-! ## JSON values and a model of Python `json.loads` -/

/-- JSON values as produced by Python `json.loads`.  Objects are modelled as
insertion-ordered association lists (Python `dict`); numeric literals are
kept as their source token (no claim in this development depends on numeric
value semantics). -/
inductive Json where
  | null : Json
  | bool : Bool → Json
  | num : Str → Json
  | str : Str → Json
  | arr : List Json → Json
  | obj : List (Str × Json) → Json

/-- Lookup in an insertion-ordered association list (Python `dict.get`,
returning `none` for a missing key). -/
def lookupA : List (Str × Json) → Str → Option Json
  | [], _ => none
  | (k', v') :: t, k => if k' = k then some v' else lookupA t k

/-- Python `dict` assignment `d[k] = v`: replace the value in place if the
key exists, otherwise append. -/
def setAssoc : List (Str × Json) → Str → Json → List (Str × Json)
  | [], k, v => [(k, v)]
  | (k', v') :: t, k, v => if k' = k then (k, v) :: t else (k', v') :: setAssoc t k v

/-- Python `d.get(k)` on a parsed JSON object. -/
def dictGet (j : Json) (k : Str) : Option Json :=
  match j with
  | .obj l => lookupA l k
  | _ => none

/-- JSON insignificant whitespace (as accepted by Python `json.loads`). -/
def skipWs (l : Str) : Str := l.dropWhile isWsChar

/-- Hexadecimal digit value, for `\uXXXX` escapes. -/
def hexVal : Char → Option Nat
  | c =>
    if '0' ≤ c ∧ c ≤ '9' then some (c.toNat - 48)
    else if 'a' ≤ c ∧ c ≤ 'f' then some (c.toNat - 87)
    else if 'A' ≤ c ∧ c ≤ 'F' then some (c.toNat - 55)
    else none

/-- Body of a JSON string literal, after the opening quote: returns the
decoded content and the rest of the input after the closing quote.  Python's
strict decoder rejects raw control characters and unknown escapes. -/
def parseStrBody (l : Str) : Option (Str × Str) :=
  match l with
  | [] => none
  | '"' :: rest => some ([], rest)
  | '\\' :: e :: rest =>
    match e with
    | '"' => (parseStrBody rest).map (fun p => ('"' :: p.1, p.2))
    | '\\' => (parseStrBody rest).map (fun p => ('\\' :: p.1, p.2))
    | '/' => (parseStrBody rest).map (fun p => ('/' :: p.1, p.2))
    | 'b' => (parseStrBody rest).map (fun p => ('\x08' :: p.1, p.2))
    | 'f' => (parseStrBody rest).map (fun p => ('\x0c' :: p.1, p.2))
    | 'n' => (parseStrBody rest).map (fun p => ('\n' :: p.1, p.2))
    | 'r' => (parseStrBody rest).map (fun p => ('\r' :: p.1, p.2))
    | 't' => (parseStrBody rest).map (fun p => ('\t' :: p.1, p.2))
    | 'u' =>
      match rest with
      | a :: b :: c :: d :: rest' =>
        match hexVal a, hexVal b, hexVal c, hexVal d with
        | some va, some vb, some vc, some vd =>
          let n := ((va * 16 + vb) * 16 + vc) * 16 + vd
          if n.isValidChar then
            (parseStrBody rest').map (fun p => (Char.ofNat n :: p.1, p.2))
          else
            -- surrogate halves: modelled as replacement, no claim uses them
            (parseStrBody rest').map (fun p => ('�' :: p.1, p.2))
        | _, _, _, _ => none
      | _ => none
    | _ => none
  | c :: rest =>
    if c.toNat < 32 then none
    else (parseStrBody rest).map (fun p => (c :: p.1, p.2))

/-- One or more decimal digits. -/
def takeDigits1 (l : Str) : Option (Str × Str) :=
  let ds := l.takeWhile Char.isDigit
  if ds = [] then none else some (ds, l.drop ds.length)

/-- JSON number token after an optional leading minus sign has been
consumed: `0` or nonzero-led digits, optional fraction, optional exponent.
Returns the token characters (sans sign) and the rest. -/
def parseNumBody (l : Str) : Option (Str × Str) :=
  match l with
  | [] => none
  | c :: t =>
    if c = '0' then
      some ([c], t)
    else if c.isDigit then
      let ds := t.takeWhile Char.isDigit
      some (c :: ds, t.drop ds.length)
    else none

/-- Optional fraction part `.digits`. -/
def parseFrac (l : Str) : Option (Str × Str) :=
  match l with
  | '.' :: t =>
    match takeDigits1 t with
    | some (ds, rest) => some ('.' :: ds, rest)
    | none => none
  | _ => some ([], l)

/-- Optional exponent part `[eE][+-]?digits`. -/
def parseExp (l : Str) : Option (Str × Str) :=
  match l with
  | c :: t =>
    if c = 'e' ∨ c = 'E' then
      match t with
      | s :: t' =>
        if s = '+' ∨ s = '-' then
          match takeDigits1 t' with
          | some (ds, rest) => some (c :: s :: ds, rest)
          | none => none
        else
          match takeDigits1 t with
          | some (ds, rest) => some (c :: ds, rest)
          | none => none
      | [] => none
    else some ([], l)
  | [] => some ([], l)

/-- JSON number starting at `l` (which begins with `-` or a digit). -/
def parseNum (l : Str) : Option (Str × Str) :=
  match l with
  | '-' :: t =>
    match parseNumBody t with
    | some (i, r1) =>
      match parseFrac r1 with
      | some (f, r2) =>
        match parseExp r2 with
        | some (e, r3) => some ('-' :: (i ++ f ++ e), r3)
        | none => none
      | none => none
    | none => none
  | _ =>
    match parseNumBody l with
    | some (i, r1) =>
      match parseFrac r1 with
      | some (f, r2) =>
        match parseExp r2 with
        | some (e, r3) => some (i ++ f ++ e, r3)
        | none => none
      | none => none
    | none => none

mutual

/-- One JSON value starting at the head of the input (whitespace already
skipped), fuel-indexed.  Mirrors Python `json.loads`, including its default
acceptance of the `NaN` / `Infinity` / `-Infinity` extensions. -/
def parseValue : Nat → Str → Option (Json × Str)
  | 0, _ => none
  | fuel + 1, l =>
    match l with
    | [] => none
    | '"' :: t => (parseStrBody t).map (fun p => (Json.str p.1, p.2))
    | '{' :: t =>
      let t' := skipWs t
      match t' with
      | '}' :: rest => some (Json.obj [], rest)
      | _ =>
        match parseMembers fuel t' with
        | some (ms, rest) => some (Json.obj (ms.foldl (fun d p => setAssoc d p.1 p.2) []), rest)
        | none => none
    | '[' :: t =>
      let t' := skipWs t
      match t' with
      | ']' :: rest => some (Json.arr [], rest)
      | _ =>
        match parseElems fuel t' with
        | some (es, rest) => some (Json.arr es, rest)
        | none => none
    | c :: _ =>
      if ['t', 'r', 'u', 'e'].isPrefixOf l then some (Json.bool true, l.drop 4)
      else if ['f', 'a', 'l', 's', 'e'].isPrefixOf l then some (Json.bool false, l.drop 5)
      else if ['n', 'u', 'l', 'l'].isPrefixOf l then some (Json.null, l.drop 4)
      else if ['N', 'a', 'N'].isPrefixOf l then some (Json.num ['N', 'a', 'N'], l.drop 3)
      else if ['I', 'n', 'f', 'i', 'n', 'i', 't', 'y'].isPrefixOf l then
        some (Json.num ['I', 'n', 'f', 'i', 'n', 'i', 't', 'y'], l.drop 8)
      else if ['-', 'I', 'n', 'f', 'i', 'n', 'i', 't', 'y'].isPrefixOf l then
        some (Json.num ['-', 'I', 'n', 'f', 'i', 'n', 'i', 't', 'y'], l.drop 9)
      else if c = '-' ∨ c.isDigit then
        (parseNum l).map (fun p => (Json.num p.1, p.2))
      else none

/-- One or more comma-separated object members, ending at the closing brace
(which is consumed). -/
def parseMembers : Nat → Str → Option (List (Str × Json) × Str)
  | 0, _ => none
  | fuel + 1, l =>
    match l with
    | '"' :: t =>
      match parseStrBody t with
      | some (key, r1) =>
        match skipWs r1 with
        | ':' :: r2 =>
          match parseValue fuel (skipWs r2) with
          | some (v, r3) =>
            match skipWs r3 with
            | ',' :: r4 =>
              match parseMembers fuel (skipWs r4) with
              | some (ms, r5) => some ((key, v) :: ms, r5)
              | none => none
            | '}' :: r4 => some ([(key, v)], r4)
            | _ => none
          | none => none
        | _ => none
      | none => none
    | _ => none

/-- One or more comma-separated array elements, ending at the closing
bracket (which is consumed). -/
def parseElems : Nat → Str → Option (List Json × Str)
  | 0, _ => none
  | fuel + 1, l =>
    match parseValue fuel l with
    | some (v, r1) =>
      match skipWs r1 with
      | ',' :: r2 =>
        match parseElems fuel (skipWs r2) with
        | some (es, r3) => some (v :: es, r3)
        | none => none
      | ']' :: r2 => some ([v], r2)
      | _ => none
    | none => none

end

/-- Model of Python `json.loads`: strips surrounding whitespace, parses one
JSON value, and requires the input to be exhausted.  Returns `none` where
`json.loads` raises `json.JSONDecodeError`. -/
def pyJsonParse (l : Str) : Option Json :=
  let t := pystrip l
  match parseValue (2 * t.length + 4) t with
  | some (v, rest) => if skipWs rest = [] then some v else none
  | none => none

/-! ## extrator2.py — response normalization, JSON recovery, truncation repair -/

/-- The deterministic attachment URL computed by `extrator2.py` from the PDF
base filename (`s3://compras-ia-np/Contratos/<filename>`). -/
def s3Url (pdf_filename : Str) : Str :=
  "s3://compras-ia-np/Contratos/".toList ++ pdf_filename

/-- Markdown fence marker. -/
def fenceMarker : Str := "```".toList

/-- Response cleaning shared by `analyze_with_gemini` (extrator2.py lines
207-218) and `try_repair_truncated_json` (lines 1411-1416): strip, drop a
leading fence marker tagged json, drop from the last fence marker when the
text ends with one, remove remaining fence markers, strip again.

Two Python calls are simplified under their guards: `replace("```json", "", 1)`
is executed only when the text starts with that marker, so the first
occurrence is the leading one and the call drops the first 7 characters, and
`text[:text.rindex("```")]` is executed only when the text ends with the
marker, so the last occurrence starts exactly 3 characters before the end
and the slice drops the final 3 characters. -/
def normStep1 (c0 : Str) : Str :=
  if "```json".toList.isPrefixOf c0 then c0.drop 7 else c0

def normStep2 (c1 : Str) : Str :=
  if fenceMarker.isSuffixOf c1 then c1.take (c1.length - 3) else c1

def normalizeResponse (raw : Str) : Str :=
  pystrip (replaceAll (normStep2 (normStep1 (pystrip raw))) fenceMarker [])

/-- Index of the first occurrence of a character. -/
def firstIdx (l : Str) (c : Char) : Option Nat := l.findIdx? (fun x => x = c)

/-- Index of the last occurrence of a character. -/
def lastIdx (l : Str) (c : Char) : Option Nat :=
  match l.reverse.findIdx? (fun x => x = c) with
  | some k => some (l.length - 1 - k)
  | none => none

/-- Recovery strategy 1 of `analyze_with_gemini` (lines 236-241): the span
matched by `re.search(r'(\{.*\})', text, re.DOTALL)`.  The leftmost match of
that greedy pattern runs from the first opening brace to the last closing
brace, provided the latter comes after the former. -/
def findSpan (l : Str) : Option Str :=
  match firstIdx l '{', lastIdx l '}' with
  | some i, some j => if i < j then some ((l.drop i).take (j - i + 1)) else none
  | _, _ => none

/-- Recovery strategy 2 of `analyze_with_gemini` (lines 259-274): scan each
position; at each opening brace attempt to parse the suffix starting there,
returning the first success. -/
def suffixScan (l : Str) : Option Json :=
  match l with
  | [] => none
  | c :: t =>
    if c = '{' then
      match pyJsonParse (c :: t) with
      | some j => some j
      | none => suffixScan t
    else suffixScan t

/-- The conditional attachment-URL correction applied by
`analyze_with_gemini` on every successful parse (lines 246-250, 266-270,
279-283): if `parsed_json.get("anexo_contrato")` differs from the expected
URL, assign the expected URL.  On a non-dict value the attribute access
raises, which the outer handler of `analyze_with_gemini` turns into a `None`
result; this is modelled by returning `none`. -/
def fixAnexoOpt (j : Json) (pdf_filename : Str) : Option Json :=
  match j with
  | .obj l =>
    some (match lookupA l "anexo_contrato".toList with
      | some (.str s) =>
        if s = s3Url pdf_filename then .obj l
        else .obj (setAssoc l "anexo_contrato".toList (.str (s3Url pdf_filename)))
      | _ => .obj (setAssoc l "anexo_contrato".toList (.str (s3Url pdf_filename))))
  | _ => none

/-- The unconditional attachment-URL assignment of
`try_repair_truncated_json` (lines 1424, 1463); a non-dict value raises and
the outer handler returns `None`. -/
def setAnexoOpt (j : Json) (pdf_filename : Str) : Option Json :=
  match j with
  | .obj l => some (.obj (setAssoc l "anexo_contrato".toList (.str (s3Url pdf_filename))))
  | _ => none

/-- The structured fallback object synthesized by `analyze_with_gemini` when
every parse strategy has failed (lines 292-297). -/
def fallbackJson (cleaned pdf_filename : Str) : Json :=
  Json.obj [
    ("status_extracao".toList, Json.str "Falha".toList),
    ("mensagem".toList, Json.str "Não foi possível extrair dados estruturados".toList),
    ("resposta_modelo".toList,
      Json.str (cleaned.take 1000 ++ (if 1000 < cleaned.length then "...".toList else []))),
    ("anexo_contrato".toList, Json.str (s3Url pdf_filename))]

/-- Strategies 2 and 3 of `analyze_with_gemini` followed by the fallback
(lines 259-298).  Strategy 3 parses the full cleaned text; if it yields a
non-dict value the URL correction raises and the outer handler returns
`None`. -/
def analyzeStage2 (cleaned pdf_filename : Str) : Option Json :=
  match suffixScan cleaned with
  | some j => fixAnexoOpt j pdf_filename
  | none =>
    match pyJsonParse cleaned with
    | some j => fixAnexoOpt j pdf_filename
    | none => some (fallbackJson cleaned pdf_filename)

/-- The response-processing portion of `analyze_with_gemini` (extrator2.py
lines 199-298), from the raw model text to the returned JSON object.  The
external LLM call, timing, and the raw-response passthrough of the Python
triple return value are outside the model; `none` stands for the `None`
first component of the Python return value. -/
def analyze_with_gemini (raw_output pdf_filename : Str) : Option Json :=
  if pystrip raw_output = [] then none
  else if normalizeResponse raw_output = [] then none
  else
    match findSpan (normalizeResponse raw_output) with
    | some span =>
      match pyJsonParse (pystrip span) with
      | some j => fixAnexoOpt j pdf_filename
      | none => analyzeStage2 (normalizeResponse raw_output) pdf_filename
    | none => analyzeStage2 (normalizeResponse raw_output) pdf_filename

/-- One position of `re.search(r'(\{\s*"[^"]+"\s*:)', text)`: an opening
brace, optional whitespace, a nonempty quoted key, optional whitespace and a
colon. -/
def matchJsonStartAt (l : Str) : Bool :=
  match l with
  | '{' :: t =>
    match skipWs t with
    | '"' :: u =>
      let body := u.takeWhile (fun c => c ≠ '"')
      decide (body ≠ []) &&
        (match u.drop body.length with
         | '"' :: v =>
           match skipWs v with
           | ':' :: _ => true
           | _ => false
         | _ => false)
    | _ => false
  | _ => false

/-- `re.search` of the object-opening shape over all positions
(try_repair_truncated_json line 1433). -/
def searchJsonStart (l : Str) : Bool :=
  matchJsonStartAt l ||
    match l with
    | [] => false
    | _ :: t => searchJsonStart t

/-- One position of `re.search(r',\s*"[^"]+"\s*:\s*$', text)`: a comma,
optional whitespace, a nonempty quoted key, optional whitespace, a colon,
then only whitespace up to the end of the text. -/
def matchLastPropAt (l : Str) : Bool :=
  match l with
  | ',' :: t =>
    match skipWs t with
    | '"' :: u =>
      let body := u.takeWhile (fun c => c ≠ '"')
      decide (body ≠ []) &&
        (match u.drop body.length with
         | '"' :: v =>
           match skipWs v with
           | ':' :: w => decide (skipWs w = [])
           | _ => false
         | _ => false)
    | _ => false
  | _ => false

/-- `re.search` of the dangling-property shape over all positions
(try_repair_truncated_json line 1449). -/
def searchLastProp (l : Str) : Bool :=
  matchLastPropAt l ||
    match l with
    | [] => false
    | _ :: t => searchLastProp t

/-- Python `text.rstrip().rstrip(",")`: trailing whitespace, then all
trailing commas. -/
def dropTrailingCommas (l : Str) : Str :=
  ((pyrstrip l).reverse.dropWhile (fun c => c = ',')).reverse

/-- The structural repair steps of `DoclingGeminiApp.try_repair_truncated_json`
(extrator2.py lines 1438-1456), in source order: append the deficit of
closing braces, then append the string `"Parcial"` if the text still ends
with a dangling `,"key":` property, then replace all trailing commas by a
newline and a closing brace if the right-stripped text ends with a comma. -/
def repairAttempt (cleaned : Str) : Str :=
  let ob := countChar cleaned '{'
  let cb := countChar cleaned '}'
  let c1 := if cb < ob then cleaned ++ List.replicate (ob - cb) '}' else cleaned
  let c2 := if searchLastProp c1 then c1 ++ " \"Parcial\"".toList else c1
  if (pyrstrip c2).getLast? = some ',' then dropTrailingCommas c2 ++ "\n\x7d".toList
  else c2

/-- `DoclingGeminiApp.try_repair_truncated_json` (extrator2.py lines
1401-1472): clean the raw response; if it parses, force the attachment URL
and return it; otherwise require an object-opening shape, run the
structural repair (`repairAttempt`), re-parse, force the attachment URL on
success, and return `None` on failure.  The
`os.path.basename(self.current_pdf_path)` step is modelled by taking the
base filename as the `pdf_filename` argument. -/
def try_repair_truncated_json (raw pdf_filename : Str) : Option Json :=
  match pyJsonParse (normalizeResponse raw) with
  | some j => setAnexoOpt j pdf_filename
  | none =>
    if ¬ searchJsonStart (normalizeResponse raw) then none
    else
      match pyJsonParse (repairAttempt (normalizeResponse raw)) with
      | some j => setAnexoOpt j pdf_filename
      | none => none

/-! ## repoSQL.py — domain models -/

/-- Domain model `OrgaoContratante` (repoSQL.py lines 17-21). -/
structure OrgaoContratante where
  razao_social : Str
  sigla : Option Str
  cnpj : Str

/-- Domain model `EmpresaContratada` (repoSQL.py lines 24-27). -/
structure EmpresaContratada where
  razao_social : Str
  cnpj : Str

/-- Domain model `Item` (repoSQL.py lines 30-49). -/
structure Item where
  descricao : Str
  especificacao : Option Str
  unidade_medida : Option Str
  quantidade : Option Str
  valor_unitario : Option Str
  valor_total : Option Str
  catmat_catser : Option Str
  tipo : Str
  locais_execucao_entrega : Option Str

/-- Domain model `Contrato` (repoSQL.py lines 52-75). -/
structure Contrato where
  numero_contrato : Str
  tipo_instrumento : Str
  processo_administrativo : Option Str
  data_celebracao : Option Str
  fonte_preco : Str
  referencia_contrato : Option Str
  url_pdf_s3 : Option Str
  status_extracao : Str
  orgao_contratante : OrgaoContratante
  empresa_contratada : EmpresaContratada
  itens : List Item

/-- A calendar date as produced by `datetime.strptime(s, "%d/%m/%Y").date()`. -/
structure PyDate where
  day : Nat
  month : Nat
  year : Nat
deriving DecidableEq

/-- Numeric value of a nonempty digit string. -/
def natOfDigits (l : Str) : Nat := l.foldl (fun a c => a * 10 + (c.toNat - 48)) 0

/-- Model of `datetime.strptime(s, "%d/%m/%Y").date()` as used by
`insert_contrato` and `persist_contract`: one-or-two-digit day and month, a
four-digit year, slash separators, with day in 1..31 and month in 1..12.
(strptime additionally rejects day numbers invalid for the specific month;
no claim depends on which date strings are accepted, only on the
accept/reject result being deterministic.)  Returns `none` where strptime
raises `ValueError`. -/
def strptimeDMY (s : Str) : Option PyDate :=
  match s.splitOn '/' with
  | [d, m, y] =>
    if d ≠ [] ∧ d.length ≤ 2 ∧ d.all Char.isDigit ∧
       m ≠ [] ∧ m.length ≤ 2 ∧ m.all Char.isDigit ∧
       y.length = 4 ∧ y.all Char.isDigit then
      let dn := natOfDigits d
      let mn := natOfDigits m
      if 1 ≤ dn ∧ dn ≤ 31 ∧ 1 ≤ mn ∧ mn ≤ 12 then
        some ⟨dn, mn, natOfDigits y⟩
      else none
    else none
  | _ => none

/-! ## repoSQL.py — database state -/

/-- A row of `precos.orgao_contratante`. -/
structure OrgaoRow where
  id : Nat
  razao_social : Str
  sigla : Option Str
  cnpj : Str

/-- A row of `precos.empresa_contratada`. -/
structure EmpresaRow where
  id : Nat
  razao_social : Str
  cnpj : Str

/-- A row of `precos.contratos`. -/
structure ContratoRow where
  id : Nat
  numero_contrato : Str
  tipo_instrumento : Str
  processo_administrativo : Option Str
  data_celebracao : Option PyDate
  fonte_preco : Str
  referencia_contrato : Option Str
  url_pdf_s3 : Option Str
  status_extracao : Str
  orgao_contratante_id : Nat
  empresa_contratada_id : Nat

/-- A row of `precos.itens`. -/
structure ItemRow where
  contrato_id : Nat
  descricao : Str
  especificacao : Option Str
  unidade_medida : Option Str
  quantidade : Option Str
  valor_unitario : Option Str
  valor_total : Option Str
  catmat_catser : Option Str
  tipo : Str
  locais_execucao_entrega : Option Str

/-- A row of `precos.log_extrator` (the `now()` registration timestamp is
not modelled). -/
structure LogRow where
  cnpj_orgao : Str
  cnpj_empresa : Str
  numero_contrato : Str
  data_contrato : Option PyDate
  quantidade_itens : Nat
  status_execucao : Str
  mensagem_log : Str

/-- The visible state of the `precos` schema: the five mutated tables as
insertion-ordered row lists, the two read-only reference code tables as the
lists of their key columns, and the sequence counters behind the serial
`id` columns. -/
structure DB where
  orgaos : List OrgaoRow
  empresas : List EmpresaRow
  contratos : List ContratoRow
  itens : List ItemRow
  logs : List LogRow
  catmat : List Str
  catser : List Str
  nextOrgaoId : Nat
  nextEmpresaId : Nat
  nextContratoId : Nat

namespace ContractRepository

/-- `SELECT id FROM precos.orgao_contratante WHERE cnpj = %s LIMIT 1`
(repoSQL.py lines 148-157). -/
def get_orgao_contratante_by_cnpj (db : DB) (cnpj : Str) : Option Nat :=
  (db.orgaos.find? (fun r => r.cnpj == cnpj)).map (fun r => r.id)

/-- `SELECT id FROM precos.empresa_contratada WHERE cnpj = %s LIMIT 1`
(lines 159-168). -/
def get_empresa_contratada_by_cnpj (db : DB) (cnpj : Str) : Option Nat :=
  (db.empresas.find? (fun r => r.cnpj == cnpj)).map (fun r => r.id)

/-- `insert_orgao_contratante` (lines 170-185): fetch by cnpj, insert when
absent, return the row id. -/
def insert_orgao_contratante (db : DB) (orgao : OrgaoContratante) : DB × Nat :=
  match get_orgao_contratante_by_cnpj db orgao.cnpj with
  | some existing_id => (db, existing_id)
  | none =>
    ({ db with
        orgaos := db.orgaos ++ [⟨db.nextOrgaoId, orgao.razao_social, orgao.sigla, orgao.cnpj⟩],
        nextOrgaoId := db.nextOrgaoId + 1 },
     db.nextOrgaoId)

/-- `insert_empresa_contratada` (lines 187-202). -/
def insert_empresa_contratada (db : DB) (empresa : EmpresaContratada) : DB × Nat :=
  match get_empresa_contratada_by_cnpj db empresa.cnpj with
  | some existing_id => (db, existing_id)
  | none =>
    ({ db with
        empresas := db.empresas ++ [⟨db.nextEmpresaId, empresa.razao_social, empresa.cnpj⟩],
        nextEmpresaId := db.nextEmpresaId + 1 },
     db.nextEmpresaId)

/-- `get_contrato_by_numero_urlpdf` (lines 204-220):
`SELECT id FROM precos.contratos WHERE numero_contrato = %s AND url_pdf_s3 = %s LIMIT 1`.
When the bound `url_pdf_s3` parameter is `None`, the SQL comparison
`url_pdf_s3 = NULL` holds for no row (PostgreSQL three-valued logic), so the
lookup finds nothing. -/
def get_contrato_by_numero_urlpdf (db : DB) (numero_contrato : Str)
    (url_pdf_s3 : Option Str) : Option Nat :=
  match url_pdf_s3 with
  | none => none
  | some u =>
    (db.contratos.find?
      (fun r => r.numero_contrato == numero_contrato && r.url_pdf_s3 == some u)).map
      (fun r => r.id)

/-- The `if contrato.data_celebracao:` guard (Python truthiness on an
optional string: `None` and `""` are falsy) followed by strptime with
`ValueError` mapped to `None` (lines 233-243 and 377-383). -/
def dataCelebracaoSql (data_celebracao : Option Str) : Option PyDate :=
  match data_celebracao with
  | some s => if s ≠ [] then strptimeDMY s else none
  | none => none

/-- `insert_contrato` (lines 222-276): reuse the id of an existing row with
the same (numero_contrato, url_pdf_s3), otherwise insert and return the new
serial id. -/
def insert_contrato (db : DB) (contrato : Contrato) (orgao_id empresa_id : Nat) :
    DB × Nat :=
  match get_contrato_by_numero_urlpdf db contrato.numero_contrato contrato.url_pdf_s3 with
  | some existing_id => (db, existing_id)
  | none =>
    ({ db with
        contratos := db.contratos ++
          [⟨db.nextContratoId, contrato.numero_contrato, contrato.tipo_instrumento,
            contrato.processo_administrativo, dataCelebracaoSql contrato.data_celebracao,
            contrato.fonte_preco, contrato.referencia_contrato, contrato.url_pdf_s3,
            contrato.status_extracao, orgao_id, empresa_id⟩],
        nextContratoId := db.nextContratoId + 1 },
     db.nextContratoId)

/-- `is_valid_catmat_catser` (lines 278-300): falsy codes are invalid;
otherwise the code must appear in `precos.catmat.codigo_item` or in
`precos.catser.codigo_material_servico` (exact SQL equality). -/
def is_valid_catmat_catser (db : DB) (code : Option Str) : Bool :=
  match code with
  | none => false
  | some s => if s = [] then false else db.catmat.contains s || db.catser.contains s

/-- `insert_item` (lines 302-330). -/
def insert_item (db : DB) (item : Item) (contrato_id : Nat) : DB :=
  { db with
      itens := db.itens ++
        [⟨contrato_id, item.descricao, item.especificacao, item.unidade_medida,
          item.quantidade, item.valor_unitario, item.valor_total, item.catmat_catser,
          item.tipo, item.locais_execucao_entrega⟩] }

/-- `insert_log_extrator` (lines 332-362). -/
def insert_log_extrator (db : DB) (cnpj_orgao cnpj_empresa numero_contrato : Str)
    (data_contrato : Option PyDate) (quantidade_itens : Nat)
    (status_execucao mensagem_log : Str) : DB :=
  { db with
      logs := db.logs ++
        [⟨cnpj_orgao, cnpj_empresa, numero_contrato, data_contrato, quantidade_itens,
          status_execucao, mensagem_log⟩] }

/-- Result of `persist_contract`: the database state after the call, the
caller's contract object (whose `itens` field the Python code mutates in
place), and the contract id resolved inside the transaction (`none` when
the transaction failed). -/
structure PersistResult where
  db : DB
  contrato : Contrato
  contratoId : Option Nat

/-- `persist_contract` (lines 364-426).  `raisedExc` models whether some
exception is raised during the insert sequence of the `try` block (lines
397-406) and carries its message: because `autocommit` is disabled, the
inserts of the sequence become visible only at `commit()`, and on an
exception `rollback()` restores the pre-transaction state, so the failure
branch leaves every table unchanged.  The item filter, the item count and
the contract date are computed before the transaction is attempted.  In
both branches the `finally` block then writes exactly one
`precos.log_extrator` row outside the (possibly rolled back) transaction,
in autocommit mode. -/
def persist_contract (raisedExc : Option Str) (db : DB) (contrato : Contrato) :
    PersistResult :=
  let data_contrato_sql := dataCelebracaoSql contrato.data_celebracao
  let valid_items :=
    contrato.itens.filter (fun item => is_valid_catmat_catser db item.catmat_catser)
  let contrato' := { contrato with itens := valid_items }
  let qtd_itens := valid_items.length
  match raisedExc with
  | none =>
    let p1 := insert_orgao_contratante db contrato'.orgao_contratante
    let db1 := p1.1
    let orgao_id := p1.2
    let p2 := insert_empresa_contratada db1 contrato'.empresa_contratada
    let db2 := p2.1
    let empresa_id := p2.2
    let p3 := insert_contrato db2 contrato' orgao_id empresa_id
    let db3 := p3.1
    let contrato_id := p3.2
    let db4 := contrato'.itens.foldl (fun d item => insert_item d item contrato_id) db3
    let db5 := insert_log_extrator db4 contrato'.orgao_contratante.cnpj
      contrato'.empresa_contratada.cnpj contrato'.numero_contrato data_contrato_sql
      qtd_itens "Sucesso".toList "Contrato processado com sucesso.".toList
    ⟨db5, contrato', some contrato_id⟩
  | some e =>
    let db5 := insert_log_extrator db contrato'.orgao_contratante.cnpj
      contrato'.empresa_contratada.cnpj contrato'.numero_contrato data_contrato_sql
      qtd_itens "Falha".toList ("Erro ao processar contrato: ".toList ++ e)
    ⟨db5, contrato', none⟩

end ContractRepository

/-! ## repoSQL.py — ContractParser

Python is dynamically typed: `ContractParser.parse` stores whatever values
the payload carries into the domain objects without coercion, so the parsed
contract graph is modelled with `Json`-valued fields.  Attribute/type errors
raised by the CPython runtime (calling `.get` on a non-dict, iterating a
non-iterable) are modelled with `Except`. -/

/-- Python truthiness of a JSON value (`bool(x)`).  A number is falsy only
when it is zero: a finite numeric token denotes zero exactly when every
digit of its mantissa (the part before any exponent marker) is `0`, so it
is truthy iff the mantissa has a nonzero digit; the non-finite tokens
`NaN`, `Infinity` and `-Infinity` accepted by `json.loads` decode to
`float('nan')` / `float('inf')`, which are truthy in Python. -/
def jsonTruthy : Json → Bool
  | .null => false
  | .bool b => b
  | .num t =>
    (t.takeWhile (fun c => !(c == 'e' || c == 'E'))).any (fun c => c.isDigit && c ≠ '0')
      || t == "NaN".toList || t == "Infinity".toList || t == "-Infinity".toList
  | .str s => decide (s ≠ [])
  | .arr l => !l.isEmpty
  | .obj l => !l.isEmpty

/-- Python `x or y`. -/
def pyOr (x y : Json) : Json := if jsonTruthy x then x else y

/-- Python `d.get(k)` (default `None`); raises `AttributeError` when the
receiver is not a dict. -/
def pyGetJ (d : Json) (k : Str) : Except Str Json :=
  match d with
  | .obj l => .ok ((lookupA l k).getD Json.null)
  | _ => .error "AttributeError".toList

/-- Python `d.get(k, default)`; raises `AttributeError` when the receiver
is not a dict. -/
def pyGetD (d : Json) (k : Str) (dflt : Json) : Except Str Json :=
  match d with
  | .obj l => .ok ((lookupA l k).getD dflt)
  | _ => .error "AttributeError".toList

/-- Python `for x in v`: a list yields its elements, a string its
characters, a dict its keys; other values raise `TypeError`. -/
def pyIterElems : Json → Except Str (List Json)
  | .arr l => .ok l
  | .str s => .ok (s.map (fun c => Json.str [c]))
  | .obj l => .ok (l.map (fun p => Json.str p.1))
  | _ => .error "TypeError".toList

/-- `OrgaoContratante` as constructed by the parser (dynamic field values). -/
structure OrgaoContratanteJ where
  razao_social : Json
  sigla : Json
  cnpj : Json

/-- `EmpresaContratada` as constructed by the parser. -/
structure EmpresaContratadaJ where
  razao_social : Json
  cnpj : Json

/-- `Item` as constructed by the parser. -/
structure ItemJ where
  descricao : Json
  especificacao : Json
  unidade_medida : Json
  quantidade : Json
  valor_unitario : Json
  valor_total : Json
  catmat_catser : Json
  tipo : Json
  locais_execucao_entrega : Json

/-- `Contrato` as constructed by the parser. -/
structure ContratoJ where
  numero_contrato : Json
  tipo_instrumento : Json
  processo_administrativo : Json
  data_celebracao : Json
  fonte_preco : Json
  referencia_contrato : Json
  url_pdf_s3 : Json
  status_extracao : Json
  orgao_contratante : OrgaoContratanteJ
  empresa_contratada : EmpresaContratadaJ
  itens : List ItemJ

namespace ContractParser

/-- The item mapping of `ContractParser.parse` (repoSQL.py lines 104-116):
`"tipo"` defaults to `"Material"`, `"descricao"` to `""`, the remaining
fields to `None`. -/
def parseItem (item_data : Json) : Except Str ItemJ := do
  let descricao ← pyGetD item_data "descricao".toList (Json.str [])
  let especificacao ← pyGetJ item_data "especificacao".toList
  let unidade_medida ← pyGetJ item_data "unidade_medida".toList
  let quantidade ← pyGetJ item_data "quantidade".toList
  let valor_unitario ← pyGetJ item_data "valor_unitario".toList
  let valor_total ← pyGetJ item_data "valor_total".toList
  let catmat_catser ← pyGetJ item_data "catmat_catser".toList
  let tipo ← pyGetD item_data "tipo".toList (Json.str "Material".toList)
  let locais ← pyGetJ item_data "locais_execucao_entrega".toList
  .ok ⟨descricao, especificacao, unidade_medida, quantidade, valor_unitario,
       valor_total, catmat_catser, tipo, locais⟩

/-- `ContractParser.parse` after `json.loads` (repoSQL.py lines 90-131),
on the decoded payload `data`. -/
def parseData (data : Json) : Except Str ContratoJ := do
  let ocv ← pyGetJ data "orgao_contratante".toList
  let oc_data := pyOr ocv (Json.obj [])
  let oc_razao ← pyGetD oc_data "razao_social".toList (Json.str [])
  let oc_sigla ← pyGetJ oc_data "sigla".toList
  let oc_cnpj ← pyGetD oc_data "cnpj".toList (Json.str [])
  let ecv ← pyGetJ data "empresa_contratada".toList
  let ec_data := pyOr ecv (Json.obj [])
  let ec_razao ← pyGetD ec_data "razao_social".toList (Json.str [])
  let ec_cnpj ← pyGetD ec_data "cnpj".toList (Json.str [])
  let itensv ← pyGetD data "itens".toList (Json.arr [])
  let elems ← pyIterElems itensv
  let itens ← elems.mapM parseItem
  let numero ← pyGetD data "numero_contrato".toList (Json.str [])
  let tipo_instrumento ← pyGetD data "tipo_instrumento".toList (Json.str "Contrato".toList)
  let processo ← pyGetJ data "processo_administrativo".toList
  let data_celebracao ← pyGetJ data "data_celebracao".toList
  let fonte ← pyGetD data "fonte_preco".toList (Json.str "Contrato".toList)
  let referencia ← pyGetJ data "referencia_contrato".toList
  let url ← pyGetJ data "url_pdf_s3".toList
  let status ← pyGetD data "status_extracao".toList (Json.str "Sucesso".toList)
  .ok ⟨numero, tipo_instrumento, processo, data_celebracao, fonte, referencia, url,
       status, ⟨oc_razao, oc_sigla, oc_cnpj⟩, ⟨ec_razao, ec_cnpj⟩, itens⟩

/-- `ContractParser.parse` (repoSQL.py lines 86-131): `json.loads` then the
field mapping.  A decode failure raises out of `parse` (the source does not
catch it). -/
def parse (json_str : Str) : Except Str ContratoJ :=
  match pyJsonParse json_str with
  | some data => parseData data
  | none => .error "JSONDecodeError".toList

end ContractParser

/-! ## repoSQL.py — generate_sql_script -/

/-- SQL string escaping in the generated script: double embedded single
quotes (`.replace("'", "''")`). -/
def sqlEscape (s : Str) : Str := replaceAll s "\x27".toList "\x27\x27".toList

/-- Quote stripping applied to the numeric-looking item fields
(`.replace("'", "")`). -/
def sqlDropQuotes (s : Str) : Str := replaceAll s "\x27".toList []

/-- Exactly `dd/dd/dddd` with decimal digits. -/
def isDateShape (l : Str) : Bool :=
  match l with
  | [d1, d2, '/', m1, m2, '/', y1, y2, y3, y4] =>
    d1.isDigit && d2.isDigit && m1.isDigit && m2.isDigit &&
      y1.isDigit && y2.isDigit && y3.isDigit && y4.isDigit
  | _ => false

/-- `re.match(r'^\d{2}/\d{2}/\d{4}$', s)` (generate_sql_script line 506):
anchored at both ends; Python `$` also matches just before one trailing
newline. -/
def matchesDateRe (l : Str) : Bool :=
  isDateShape l || (l.getLast? == some '\n' && isDateShape l.dropLast)

/-- The `data_sql` value of generate_sql_script (lines 502-510). -/
def dataSqlScript (data_celebracao : Option Str) : Str :=
  match data_celebracao with
  | some s =>
    if s ≠ [] then
      if matchesDateRe s then
        "TO_DATE(\x27".toList ++ s ++ "\x27, \x27DD/MM/YYYY\x27)".toList
      else "NULL".toList
    else "NULL".toList
  | none => "NULL".toList

/-- One item of the generated multi-row select (generate_sql_script lines
583-610): strings are escaped by doubling quotes, the numeric-looking
fields (quantity, prices, code) have quotes stripped instead. -/
def itemScript (item : Item) : Str :=
  "\n    id,\n    \x27".toList ++ sqlEscape item.descricao ++
  "\x27,\n    \x27".toList ++ sqlEscape (item.especificacao.getD []) ++
  "\x27,\n    \x27".toList ++ sqlEscape (item.unidade_medida.getD []) ++
  "\x27,\n    \x27".toList ++ sqlDropQuotes (item.quantidade.getD []) ++
  "\x27,\n    \x27".toList ++ sqlDropQuotes (item.valor_unitario.getD []) ++
  "\x27,\n    \x27".toList ++ sqlDropQuotes (item.valor_total.getD []) ++
  "\x27,\n    \x27".toList ++ sqlDropQuotes (item.catmat_catser.getD []) ++
  "\x27,\n    \x27".toList ++ sqlEscape item.tipo ++
  "\x27,\n    \x27".toList ++ sqlEscape (item.locais_execucao_entrega.getD []) ++
  "\x27\nFROM contrato_id".toList

/-- The `first_item` loop of generate_sql_script (lines 581-610): a
`SELECT` marker for the first item, `UNION ALL` plus `SELECT` for the
following ones, each followed by the item row text. -/
def itemChunks : List Item → Bool → List Str
  | [], _ => []
  | item :: rest, first_item =>
    (if first_item then "SELECT".toList else "UNION ALL\nSELECT".toList)
      :: itemScript item
      :: itemChunks rest false

/-- The filename with `.pdf` appended when its lowercase form does not
already end with it (generate_sql_script lines 461-464). -/
def scriptPdfFilename (filename : Str) : Str :=
  if !(".pdf".toList.isSuffixOf (pyLower filename)) then filename ++ ".pdf".toList
  else filename

/-- The S3 URL computed by generate_sql_script (line 467). -/
def scriptUrl (filename : Str) : Str :=
  "s3://compras-ia-np/Contratos/".toList ++ scriptPdfFilename filename

/-- The comment-only script returned when no item survives filtering
(line 458). -/
def noValidItemsComment (filename : Str) : Str :=
  "-- Contrato de ".toList ++ filename ++
    " não possui itens válidos. Nenhuma ação realizada.".toList

/-- The comment-only script returned when a contract with the same PDF URL
already exists (line 476). -/
def contractExistsComment (url : Str) (id : Nat) : Str :=
  "-- Contrato com URL do PDF \x27".toList ++ url ++
    "\x27 já existe no banco de dados (ID=".toList ++ natRepr id ++
    "). Nenhuma ação realizada.".toList

/-- `generate_sql_script(contrato, filename)` (repoSQL.py lines 429-618).
The fresh psycopg2 connection that the function opens for its validity
pre-checks is modelled by the `db` argument (the state of the `precos`
schema seen through that connection).  Plain string fields wrapped by the
source in `(x or "")` keep their value (for a Python `str`, the expression
only replaces the falsy `""` by `""`); `Optional` fields use the default
`""`.  Line 479 overwrites `contrato.url_pdf_s3` with the URL computed from
`filename` before any field of the contract is rendered. -/
def generate_sql_script (db : DB) (contrato : Contrato) (filename : Str) : Str :=
  let valid_items :=
    contrato.itens.filter
      (fun it => ContractRepository.is_valid_catmat_catser db it.catmat_catser)
  if valid_items.isEmpty then
    noValidItemsComment filename
  else
    let url_pdf_s3 := scriptUrl filename
    match db.contratos.find? (fun r => r.url_pdf_s3 == some url_pdf_s3) with
    | some existing_contract =>
      contractExistsComment url_pdf_s3 existing_contract.id
    | none =>
      let contrato := { contrato with url_pdf_s3 := some url_pdf_s3 }
      let orgao_cnpj := contrato.orgao_contratante.cnpj
      let orgao_razao := sqlEscape contrato.orgao_contratante.razao_social
      let orgao_sigla := sqlEscape (contrato.orgao_contratante.sigla.getD [])
      let emp_cnpj := contrato.empresa_contratada.cnpj
      let emp_razao := sqlEscape contrato.empresa_contratada.razao_social
      let data_sql := dataSqlScript contrato.data_celebracao
      let numero_contrato := sqlEscape contrato.numero_contrato
      let tipo_instrumento := sqlEscape contrato.tipo_instrumento
      let processo_adm := sqlEscape (contrato.processo_administrativo.getD [])
      let fonte_preco := sqlEscape contrato.fonte_preco
      let ref_contrato := sqlEscape (contrato.referencia_contrato.getD [])
      let url_pdf_s3_value := sqlEscape (contrato.url_pdf_s3.getD [])
      let status := sqlEscape contrato.status_extracao
      let script_lines : List Str :=
        [ "-- Inserindo Orgao Contratante\nINSERT INTO precos.orgao_contratante (razao_social, sigla, cnpj)\nVALUES (\x27".toList ++
            orgao_razao ++ "\x27, \x27".toList ++ orgao_sigla ++ "\x27, \x27".toList ++
            orgao_cnpj ++ "\x27)\nON CONFLICT (cnpj) DO NOTHING; \n".toList,
          "-- Inserindo Empresa Contratada\nINSERT INTO precos.empresa_contratada (razao_social, cnpj)\nVALUES (\x27".toList ++
            emp_razao ++ "\x27, \x27".toList ++ emp_cnpj ++
            "\x27)\nON CONFLICT (cnpj) DO NOTHING;\n".toList,
          "-- Inserir contrato (se não existir) e obter ID\nWITH contrato_upsert AS (\n    INSERT INTO precos.contratos (\n        numero_contrato,\n        tipo_instrumento,\n        processo_administrativo,\n        data_celebracao,\n        fonte_preco,\n        referencia_contrato,\n        url_pdf_s3,\n        status_extracao,\n        orgao_contratante_id,\n        empresa_contratada_id\n    )\n    SELECT \n        \x27".toList ++
            numero_contrato ++ "\x27,\n        \x27".toList ++
            tipo_instrumento ++ "\x27,\n        \x27".toList ++
            processo_adm ++ "\x27,\n        ".toList ++
            data_sql ++ ",\n        \x27".toList ++
            fonte_preco ++ "\x27,\n        \x27".toList ++
            ref_contrato ++ "\x27,\n        \x27".toList ++
            url_pdf_s3_value ++ "\x27,\n        \x27".toList ++
            status ++ "\x27,\n        (SELECT id FROM precos.orgao_contratante WHERE cnpj = \x27".toList ++
            orgao_cnpj ++ "\x27 LIMIT 1),\n        (SELECT id FROM precos.empresa_contratada WHERE cnpj = \x27".toList ++
            emp_cnpj ++ "\x27 LIMIT 1)\n    WHERE \n        NOT EXISTS (\n            SELECT 1 \n            FROM precos.contratos \n            WHERE url_pdf_s3 = \x27".toList ++
            url_pdf_s3_value ++ "\x27\n        )\n    RETURNING id\n)".toList,
          ", contrato_id AS (\n    SELECT id FROM contrato_upsert\n    UNION ALL\n    SELECT id FROM precos.contratos \n    WHERE url_pdf_s3 = \x27".toList ++
            url_pdf_s3_value ++ "\x27\n      AND NOT EXISTS (SELECT 1 FROM contrato_upsert)\n    LIMIT 1\n)".toList,
          "-- Inserir itens\nINSERT INTO precos.itens (\n    contrato_id,\n    descricao,\n    especificacao,\n    unidade_medida,\n    quantidade,\n    valor_unitario,\n    valor_total,\n    catmat_catser,\n    tipo,\n    locais_execucao_entrega\n)".toList ]
        ++ itemChunks valid_items true
        ++ [";".toList]
      List.intercalate "\n".toList script_lines

/-! ## Plumbing lemmas about the repository operations -/

namespace ContractRepository

theorem insert_orgao_contratante_contratos (db : DB) (o : OrgaoContratante) :
    (insert_orgao_contratante db o).1.contratos = db.contratos := by
  unfold insert_orgao_contratante
  cases get_orgao_contratante_by_cnpj db o.cnpj <;> rfl

theorem insert_orgao_contratante_logs (db : DB) (o : OrgaoContratante) :
    (insert_orgao_contratante db o).1.logs = db.logs := by
  unfold insert_orgao_contratante
  cases get_orgao_contratante_by_cnpj db o.cnpj <;> rfl

theorem insert_orgao_contratante_itens (db : DB) (o : OrgaoContratante) :
    (insert_orgao_contratante db o).1.itens = db.itens := by
  unfold insert_orgao_contratante
  cases get_orgao_contratante_by_cnpj db o.cnpj <;> rfl

theorem insert_orgao_contratante_nextContratoId (db : DB) (o : OrgaoContratante) :
    (insert_orgao_contratante db o).1.nextContratoId = db.nextContratoId := by
  unfold insert_orgao_contratante
  cases get_orgao_contratante_by_cnpj db o.cnpj <;> rfl

theorem insert_empresa_contratada_contratos (db : DB) (e : EmpresaContratada) :
    (insert_empresa_contratada db e).1.contratos = db.contratos := by
  unfold insert_empresa_contratada
  cases get_empresa_contratada_by_cnpj db e.cnpj <;> rfl

theorem insert_empresa_contratada_logs (db : DB) (e : EmpresaContratada) :
    (insert_empresa_contratada db e).1.logs = db.logs := by
  unfold insert_empresa_contratada
  cases get_empresa_contratada_by_cnpj db e.cnpj <;> rfl

theorem insert_empresa_contratada_itens (db : DB) (e : EmpresaContratada) :
    (insert_empresa_contratada db e).1.itens = db.itens := by
  unfold insert_empresa_contratada
  cases get_empresa_contratada_by_cnpj db e.cnpj <;> rfl

theorem insert_empresa_contratada_nextContratoId (db : DB) (e : EmpresaContratada) :
    (insert_empresa_contratada db e).1.nextContratoId = db.nextContratoId := by
  unfold insert_empresa_contratada
  cases get_empresa_contratada_by_cnpj db e.cnpj <;> rfl

theorem insert_contrato_logs (db : DB) (c : Contrato) (oid eid : Nat) :
    (insert_contrato db c oid eid).1.logs = db.logs := by
  unfold insert_contrato
  cases get_contrato_by_numero_urlpdf db c.numero_contrato c.url_pdf_s3 <;> rfl

theorem insert_contrato_itens (db : DB) (c : Contrato) (oid eid : Nat) :
    (insert_contrato db c oid eid).1.itens = db.itens := by
  unfold insert_contrato
  cases get_contrato_by_numero_urlpdf db c.numero_contrato c.url_pdf_s3 <;> rfl

/-- The itens-insert loop appends exactly the rows of the inserted items
and touches no other table. -/
theorem foldl_insert_item_itens (items : List Item) (db : DB) (cid : Nat) :
    (items.foldl (fun d item => insert_item d item cid) db).itens
      = db.itens ++ items.map (fun item =>
          (⟨cid, item.descricao, item.especificacao, item.unidade_medida,
            item.quantidade, item.valor_unitario, item.valor_total,
            item.catmat_catser, item.tipo, item.locais_execucao_entrega⟩ : ItemRow)) := by
  induction items generalizing db with
  | nil => simp
  | cons hd tl ih => rw [List.foldl_cons, ih]; simp [insert_item]

theorem foldl_insert_item_logs (items : List Item) (db : DB) (cid : Nat) :
    (items.foldl (fun d item => insert_item d item cid) db).logs = db.logs := by
  induction items generalizing db with
  | nil => rfl
  | cons hd tl ih => rw [List.foldl_cons, ih]; rfl

theorem foldl_insert_item_contratos (items : List Item) (db : DB) (cid : Nat) :
    (items.foldl (fun d item => insert_item d item cid) db).contratos = db.contratos := by
  induction items generalizing db with
  | nil => rfl
  | cons hd tl ih => rw [List.foldl_cons, ih]; rfl

end ContractRepository

namespace ContractRepository

theorem insert_log_extrator_logs (db : DB) (a b c : Str) (d : Option PyDate) (q : Nat)
    (s m : Str) :
    (insert_log_extrator db a b c d q s m).logs = db.logs ++ [⟨a, b, c, d, q, s, m⟩] := rfl

theorem insert_log_extrator_itens (db : DB) (a b c : Str) (d : Option PyDate) (q : Nat)
    (s m : Str) :
    (insert_log_extrator db a b c d q s m).itens = db.itens := rfl

theorem insert_log_extrator_contratos (db : DB) (a b c : Str) (d : Option PyDate) (q : Nat)
    (s m : Str) :
    (insert_log_extrator db a b c d q s m).contratos = db.contratos := rfl

end ContractRepository

/-! ## Sample fixtures used by witness theorems -/

def sampleOrgao : OrgaoContratante := ⟨"Org A".toList, some "OA".toList, "11".toList⟩

def sampleEmpresa : EmpresaContratada := ⟨"Emp B".toList, "22".toList⟩

def sampleItemValid : Item :=
  ⟨"item1".toList, none, none, some "2".toList, none, none, some "C1".toList,
   "Material".toList, none⟩

def sampleItemInvalid : Item :=
  ⟨"item2".toList, none, none, none, none, none, some "ZZ".toList,
   "Material".toList, none⟩

/-- A contract whose item list holds one item with a known classification
code and one with an unknown code. -/
def sampleContrato : Contrato :=
  ⟨"N1".toList, "Contrato".toList, none, some "01/02/2023".toList, "Contrato".toList,
   none, some "s3://u".toList, "Sucesso".toList, sampleOrgao, sampleEmpresa,
   [sampleItemValid, sampleItemInvalid]⟩

/-- An empty schema whose catmat reference table knows the code C1. -/
def sampleDB : DB := ⟨[], [], [], [], [], ["C1".toList], [], 1, 1, 1⟩

/-! ## Claim theorems: persistence (C10, C3, C4) -/

/-- C10: `persist_contract` mutates its `Contrato` argument: after the
call, the contract object's `itens` field has been replaced by the filtered
list of items that passed classification-code validation (all other fields
are untouched), so items dropped by validation are also gone from the
caller's in-memory contract. -/
theorem persist_contract_mutates_caller_itens
    (raisedExc : Option Str) (db : DB) (c : Contrato) :
    (ContractRepository.persist_contract raisedExc db c).contrato
      = { c with itens := c.itens.filter fun item => ContractRepository.is_valid_catmat_catser db item.catmat_catser } := by
  cases raisedExc <;> rfl

/-- C3: every `persist_contract` call appends exactly one `log_extrator`
row, whether the insert sequence committed or not; when an exception is
raised during the insert sequence the whole transaction is rolled back (no
table other than the log changes), yet the log row is still written, with
status Falha and the exception message, and is itself never rolled back. -/
theorem persist_contract_always_writes_one_log
    (raisedExc : Option Str) (db : DB) (c : Contrato) :
    (∃ row, (ContractRepository.persist_contract raisedExc db c).db.logs
        = db.logs ++ [row]) ∧
    (∀ e, raisedExc = some e →
      (ContractRepository.persist_contract raisedExc db c).db.logs
          = db.logs ++ [⟨c.orgao_contratante.cnpj, c.empresa_contratada.cnpj,
              c.numero_contrato, ContractRepository.dataCelebracaoSql c.data_celebracao,
              (c.itens.filter (fun item =>
                ContractRepository.is_valid_catmat_catser db item.catmat_catser)).length,
              "Falha".toList, "Erro ao processar contrato: ".toList ++ e⟩] ∧
        (ContractRepository.persist_contract raisedExc db c).db.contratos = db.contratos ∧
        (ContractRepository.persist_contract raisedExc db c).db.orgaos = db.orgaos ∧
        (ContractRepository.persist_contract raisedExc db c).db.empresas = db.empresas ∧
        (ContractRepository.persist_contract raisedExc db c).db.itens = db.itens) := by
  constructor
  · cases raisedExc with
    | none =>
      apply Exists.intro
      simp only [ContractRepository.persist_contract]
      rw [ContractRepository.insert_log_extrator_logs,
          ContractRepository.foldl_insert_item_logs,
          ContractRepository.insert_contrato_logs,
          ContractRepository.insert_empresa_contratada_logs,
          ContractRepository.insert_orgao_contratante_logs]
    | some e =>
      apply Exists.intro
      simp only [ContractRepository.persist_contract]
      rw [ContractRepository.insert_log_extrator_logs]
  · intro e he
    subst he
    refine ⟨rfl, rfl, rfl, rfl, rfl⟩

/-- A closed instance of the C3 theorem: a failing persist call on a
concrete schema leaves every table unchanged and writes exactly the Falha
log row. -/
theorem persist_contract_always_writes_one_log_witness :
    (ContractRepository.persist_contract (some "boom".toList) sampleDB sampleContrato).db.logs
        = sampleDB.logs ++ [⟨sampleContrato.orgao_contratante.cnpj,
            sampleContrato.empresa_contratada.cnpj, sampleContrato.numero_contrato,
            ContractRepository.dataCelebracaoSql sampleContrato.data_celebracao,
            (sampleContrato.itens.filter (fun item =>
              ContractRepository.is_valid_catmat_catser sampleDB item.catmat_catser)).length,
            "Falha".toList, "Erro ao processar contrato: ".toList ++ "boom".toList⟩] ∧
    (ContractRepository.persist_contract (some "boom".toList) sampleDB
        sampleContrato).db.contratos = sampleDB.contratos :=
  ⟨((persist_contract_always_writes_one_log (some "boom".toList) sampleDB
      sampleContrato).2 "boom".toList rfl).1,
   ((persist_contract_always_writes_one_log (some "boom".toList) sampleDB
      sampleContrato).2 "boom".toList rfl).2.1⟩

/-- C4: items whose classification code validates in neither reference
table produce no row in the items table (every row present after the call
was either already there or carries a valid code), and the quantidade_itens
value of the log row written by the call equals the size of the post-filter
surviving set — also when the insert transaction fails. -/
theorem persist_contract_drops_invalid_items_and_logs_count
    (raisedExc : Option Str) (db : DB) (c : Contrato) :
    (∃ row, (ContractRepository.persist_contract raisedExc db c).db.logs
        = db.logs ++ [row] ∧
        row.quantidade_itens = (c.itens.filter (fun item =>
          ContractRepository.is_valid_catmat_catser db item.catmat_catser)).length) ∧
    (∀ irow, irow ∈ (ContractRepository.persist_contract raisedExc db c).db.itens →
        irow ∈ db.itens ∨
          ContractRepository.is_valid_catmat_catser db irow.catmat_catser = true) := by
  constructor
  · cases raisedExc with
    | none =>
      apply Exists.intro
      constructor
      · simp only [ContractRepository.persist_contract]
        rw [ContractRepository.insert_log_extrator_logs,
            ContractRepository.foldl_insert_item_logs,
            ContractRepository.insert_contrato_logs,
            ContractRepository.insert_empresa_contratada_logs,
            ContractRepository.insert_orgao_contratante_logs]
      · rfl
    | some e =>
      apply Exists.intro
      constructor
      · simp only [ContractRepository.persist_contract]
        rw [ContractRepository.insert_log_extrator_logs]
      · rfl
  · intro irow h
    cases raisedExc with
    | some e =>
      have hit : (ContractRepository.persist_contract (some e) db c).db.itens
          = db.itens := rfl
      rw [hit] at h
      exact Or.inl h
    | none =>
      have hit : (ContractRepository.persist_contract none db c).db.itens
          = db.itens ++ (c.itens.filter (fun item =>
              ContractRepository.is_valid_catmat_catser db item.catmat_catser)).map
              (fun item =>
                (⟨(ContractRepository.insert_contrato
                    (ContractRepository.insert_empresa_contratada
                      (ContractRepository.insert_orgao_contratante db
                        c.orgao_contratante).1 c.empresa_contratada).1
                    { c with itens := c.itens.filter fun item => ContractRepository.is_valid_catmat_catser db item.catmat_catser }
                    (ContractRepository.insert_orgao_contratante db c.orgao_contratante).2
                    (ContractRepository.insert_empresa_contratada
                      (ContractRepository.insert_orgao_contratante db
                        c.orgao_contratante).1 c.empresa_contratada).2).2,
                  item.descricao, item.especificacao, item.unidade_medida,
                  item.quantidade, item.valor_unitario, item.valor_total,
                  item.catmat_catser, item.tipo, item.locais_execucao_entrega⟩ : ItemRow)) := by
        simp only [ContractRepository.persist_contract]
        rw [ContractRepository.insert_log_extrator_itens,
            ContractRepository.foldl_insert_item_itens,
            ContractRepository.insert_contrato_itens,
            ContractRepository.insert_empresa_contratada_itens,
            ContractRepository.insert_orgao_contratante_itens]
      rw [hit] at h
      rcases List.mem_append.mp h with h1 | h2
      · exact Or.inl h1
      · right
        rcases List.mem_map.mp h2 with ⟨item, hmem, heq⟩
        have hv := (List.mem_filter.mp hmem).2
        rw [← heq]
        exact hv

/-- A closed instance of the C4 theorem: on a concrete schema, the row
inserted for the surviving item carries a classification code known to the
reference tables. -/
theorem persist_contract_drops_invalid_items_witness :
    (⟨1, "item1".toList, none, none, some "2".toList, none, none, some "C1".toList,
        "Material".toList, none⟩ : ItemRow)
        ∈ (ContractRepository.persist_contract none sampleDB sampleContrato).db.itens ∧
    ((⟨1, "item1".toList, none, none, some "2".toList, none, none, some "C1".toList,
        "Material".toList, none⟩ : ItemRow) ∈ sampleDB.itens ∨
      ContractRepository.is_valid_catmat_catser sampleDB (some "C1".toList) = true) :=
  ⟨by rw [show (ContractRepository.persist_contract none sampleDB sampleContrato).db.itens
        = [⟨1, "item1".toList, none, none, some "2".toList, none, none, some "C1".toList,
            "Material".toList, none⟩] from rfl]
      exact List.mem_singleton.mpr rfl,
   (persist_contract_drops_invalid_items_and_logs_count none sampleDB sampleContrato).2 _
     (by rw [show (ContractRepository.persist_contract none sampleDB sampleContrato).db.itens
          = [⟨1, "item1".toList, none, none, some "2".toList, none, none, some "C1".toList,
              "Material".toList, none⟩] from rfl]
         exact List.mem_singleton.mpr rfl)⟩

/-! ## Claim C2: contract dedup on (numero_contrato, url_pdf_s3) -/

/-- The key predicate of `get_contrato_by_numero_urlpdf` for a non-null URL
parameter. -/
def keyPred (n u : Str) : ContratoRow → Bool :=
  fun r => r.numero_contrato == n && r.url_pdf_s3 == some u

/-- Number of contract rows with the given (numero_contrato, url_pdf_s3)
key. -/
def keyCount (rows : List ContratoRow) (n u : Str) : Nat :=
  (rows.filter (keyPred n u)).length

namespace ContractRepository

theorem get_contrato_some_eq (db : DB) (n u : Str) :
    get_contrato_by_numero_urlpdf db n (some u)
      = (db.contratos.find? (keyPred n u)).map (fun r => r.id) := rfl

theorem get_contrato_congr {db db' : DB} (n : Str) (u : Option Str)
    (h : db.contratos = db'.contratos) :
    get_contrato_by_numero_urlpdf db n u = get_contrato_by_numero_urlpdf db' n u := by
  unfold get_contrato_by_numero_urlpdf
  cases u with
  | none => rfl
  | some uu => rw [h]

/-- Characterization of a committed `persist_contract` run: the contracts
table is unchanged when the (numero_contrato, url_pdf_s3) lookup hits, and
gains exactly one row (carrying the contract's key and the next serial id)
when it misses; the resolved contract id is the found id, respectively the
new serial id. -/
theorem persist_none_contratos_char (db : DB) (c : Contrato) :
    (persist_contract none db c).db.contratos = db.contratos ++
       (match get_contrato_by_numero_urlpdf db c.numero_contrato c.url_pdf_s3 with
        | some _ => []
        | none => [⟨db.nextContratoId, c.numero_contrato, c.tipo_instrumento,
            c.processo_administrativo, dataCelebracaoSql c.data_celebracao, c.fonte_preco,
            c.referencia_contrato, c.url_pdf_s3, c.status_extracao,
            (insert_orgao_contratante db c.orgao_contratante).2,
            (insert_empresa_contratada (insert_orgao_contratante db c.orgao_contratante).1
              c.empresa_contratada).2⟩]) ∧
    (persist_contract none db c).contratoId =
       (match get_contrato_by_numero_urlpdf db c.numero_contrato c.url_pdf_s3 with
        | some i => some i
        | none => some db.nextContratoId) := by
  have hc2 : (insert_empresa_contratada (insert_orgao_contratante db c.orgao_contratante).1
      c.empresa_contratada).1.contratos = db.contratos := by
    rw [insert_empresa_contratada_contratos, insert_orgao_contratante_contratos]
  have hn2 : (insert_empresa_contratada (insert_orgao_contratante db c.orgao_contratante).1
      c.empresa_contratada).1.nextContratoId = db.nextContratoId := by
    rw [insert_empresa_contratada_nextContratoId, insert_orgao_contratante_nextContratoId]
  constructor
  · simp only [persist_contract]
    rw [insert_log_extrator_contratos, foldl_insert_item_contratos]
    unfold insert_contrato
    rw [get_contrato_congr _ _ hc2]
    cases hget : get_contrato_by_numero_urlpdf db c.numero_contrato c.url_pdf_s3 <;>
      simp [hget, hc2, hn2]
  · simp only [persist_contract]
    unfold insert_contrato
    rw [get_contrato_congr _ _ hc2]
    cases hget : get_contrato_by_numero_urlpdf db c.numero_contrato c.url_pdf_s3 <;>
      simp [hget, hc2, hn2]

end ContractRepository

/-- C2 (amended): for two `persist_contract` calls whose contracts carry
identical (numero_contrato, url_pdf_s3) keys with a NON-NULL url_pdf_s3 and
possibly different item lists, at most one contracts row ever exists for
that key (the key count after both calls is `max (previous count) 1`), and
the second call resolves exactly the contract id of the first. -/
theorem persist_contract_dedup_nonnull_url (db : DB) (c1 c2 : Contrato) (u : Str)
    (h1 : c1.numero_contrato = c2.numero_contrato)
    (h2 : c1.url_pdf_s3 = some u) (h3 : c2.url_pdf_s3 = some u) :
    keyCount (ContractRepository.persist_contract none
        (ContractRepository.persist_contract none db c1).db c2).db.contratos
        c2.numero_contrato u
      = max (keyCount db.contratos c2.numero_contrato u) 1 ∧
    (ContractRepository.persist_contract none
        (ContractRepository.persist_contract none db c1).db c2).contratoId
      = (ContractRepository.persist_contract none db c1).contratoId ∧
    (ContractRepository.persist_contract none db c1).contratoId.isSome = true := by
  obtain ⟨hA1, hA2⟩ := ContractRepository.persist_none_contratos_char db c1
  obtain ⟨hB1, hB2⟩ := ContractRepository.persist_none_contratos_char
    (ContractRepository.persist_contract none db c1).db c2
  have hg1 : ContractRepository.get_contrato_by_numero_urlpdf db c1.numero_contrato
      c1.url_pdf_s3
      = (db.contratos.find? (keyPred c2.numero_contrato u)).map (fun r => r.id) := by
    rw [h1, h2, ContractRepository.get_contrato_some_eq]
  have hg2base : ContractRepository.get_contrato_by_numero_urlpdf
      (ContractRepository.persist_contract none db c1).db
      c2.numero_contrato c2.url_pdf_s3
      = ((ContractRepository.persist_contract none db c1).db.contratos.find?
          (keyPred c2.numero_contrato u)).map (fun r => r.id) := by
    rw [h3, ContractRepository.get_contrato_some_eq]
  cases hf : db.contratos.find? (keyPred c2.numero_contrato u) with
  | some row =>
    rw [hf] at hg1
    rw [hg1] at hA1 hA2
    simp only [Option.map_some', List.append_nil] at hA1 hA2
    rw [hA1, hf] at hg2base
    rw [hg2base] at hB1 hB2
    simp only [Option.map_some', List.append_nil] at hB1 hB2
    have hmem : row ∈ db.contratos.filter (keyPred c2.numero_contrato u) :=
      List.mem_filter.mpr ⟨List.mem_of_find?_eq_some hf, List.find?_some hf⟩
    have hpos : 1 ≤ keyCount db.contratos c2.numero_contrato u := by
      have := List.length_pos.mpr (List.ne_nil_of_mem hmem)
      unfold keyCount
      omega
    refine ⟨?_, ?_, ?_⟩
    · rw [hB1, hA1, Nat.max_eq_left hpos]
    · rw [hB2, hA2]
    · rw [hA2]; rfl
  | none =>
    rw [hf] at hg1
    simp only [Option.map_none'] at hg1
    rw [hg1] at hA1 hA2
    have hkeyrow : keyPred c2.numero_contrato u
        (⟨db.nextContratoId, c1.numero_contrato, c1.tipo_instrumento,
          c1.processo_administrativo, ContractRepository.dataCelebracaoSql c1.data_celebracao,
          c1.fonte_preco, c1.referencia_contrato, c1.url_pdf_s3, c1.status_extracao,
          (ContractRepository.insert_orgao_contratante db c1.orgao_contratante).2,
          (ContractRepository.insert_empresa_contratada
            (ContractRepository.insert_orgao_contratante db c1.orgao_contratante).1
            c1.empresa_contratada).2⟩ : ContratoRow) = true := by
      unfold keyPred
      simp [h1, h2]
    have hfilnil : db.contratos.filter (keyPred c2.numero_contrato u) = [] :=
      List.filter_eq_nil_iff.mpr (by
        intro a ha
        have := List.find?_eq_none.mp hf a ha
        simpa using this)
    have hfind2 : (ContractRepository.persist_contract none db c1).db.contratos.find?
        (keyPred c2.numero_contrato u)
        = some (⟨db.nextContratoId, c1.numero_contrato, c1.tipo_instrumento,
            c1.processo_administrativo, ContractRepository.dataCelebracaoSql c1.data_celebracao,
            c1.fonte_preco, c1.referencia_contrato, c1.url_pdf_s3, c1.status_extracao,
            (ContractRepository.insert_orgao_contratante db c1.orgao_contratante).2,
            (ContractRepository.insert_empresa_contratada
              (ContractRepository.insert_orgao_contratante db c1.orgao_contratante).1
              c1.empresa_contratada).2⟩ : ContratoRow) := by
      rw [hA1, List.find?_append, hf]
      simp [List.find?, hkeyrow]
    rw [hfind2] at hg2base
    rw [hg2base] at hB1 hB2
    simp only [Option.map_some', List.append_nil] at hB1 hB2
    refine ⟨?_, ?_, ?_⟩
    · rw [hB1, hA1]
      unfold keyCount
      rw [List.filter_append, hfilnil]
      simp [List.filter, hkeyrow]
    · rw [hB2, hA2]
    · rw [hA2]; rfl

/-- Same contract shape with no items at all (a different item list). -/
def sampleContratoNoItems : Contrato := { sampleContrato with itens := [] }

/-- A closed instance of the amended C2 theorem: two persists of the same
(numero_contrato, non-null url_pdf_s3) key with different item lists leave
one key row and agree on the contract id. -/
theorem persist_contract_dedup_nonnull_url_witness :
    keyCount (ContractRepository.persist_contract none
        (ContractRepository.persist_contract none sampleDB sampleContrato).db
        sampleContratoNoItems).db.contratos
        sampleContratoNoItems.numero_contrato "s3://u".toList
      = max (keyCount sampleDB.contratos sampleContratoNoItems.numero_contrato
          "s3://u".toList) 1 ∧
    (ContractRepository.persist_contract none
        (ContractRepository.persist_contract none sampleDB sampleContrato).db
        sampleContratoNoItems).contratoId
      = (ContractRepository.persist_contract none sampleDB sampleContrato).contratoId ∧
    (ContractRepository.persist_contract none sampleDB sampleContrato).contratoId.isSome
      = true :=
  persist_contract_dedup_nonnull_url sampleDB sampleContrato sampleContratoNoItems
    "s3://u".toList rfl rfl rfl

/-- The same contract with a NULL attachment URL. -/
def sampleContratoNullUrl : Contrato := { sampleContrato with url_pdf_s3 := none }

/-- C2 counterexample: with identical but NULL url_pdf_s3, the SQL lookup
`url_pdf_s3 = NULL` matches nothing, so the second `persist_contract` call
inserts a second contracts row for the same (numero_contrato, url_pdf_s3)
pair and resolves a different contract id — the claim fails as stated. -/
theorem persist_contract_null_url_duplicates :
    ((ContractRepository.persist_contract none
        (ContractRepository.persist_contract none sampleDB sampleContratoNullUrl).db
        sampleContratoNullUrl).db.contratos.filter
      (fun r => r.numero_contrato == "N1".toList
        && r.url_pdf_s3 == (none : Option Str))).length = 2 ∧
    (ContractRepository.persist_contract none
        (ContractRepository.persist_contract none sampleDB sampleContratoNullUrl).db
        sampleContratoNullUrl).contratoId
      ≠ (ContractRepository.persist_contract none sampleDB sampleContratoNullUrl).contratoId := by
  constructor
  · rfl
  · decide

/-! ## Claim C1: the attachment URL is always the computed one -/

theorem lookupA_setAssoc (l : List (Str × Json)) (k : Str) (v : Json) :
    lookupA (setAssoc l k v) k = some v := by
  induction l with
  | nil => simp [setAssoc, lookupA]
  | cons hd tl ih =>
    by_cases h : hd.1 = k
    · simp [setAssoc, h, lookupA]
    · simp [setAssoc, h, lookupA, ih]

theorem fixAnexoOpt_anexo (j : Json) (pdf : Str) (j' : Json)
    (h : fixAnexoOpt j pdf = some j') :
    dictGet j' "anexo_contrato".toList = some (Json.str (s3Url pdf)) := by
  unfold fixAnexoOpt at h
  cases j with
  | obj l =>
    simp only [Option.some.injEq] at h
    subst h
    split
    · rename_i s hs hlu
      split
      · rename_i heq
        subst heq
        simpa [dictGet] using hlu
      · exact lookupA_setAssoc l _ _
    · exact lookupA_setAssoc l _ _
  | null => exact absurd h (by simp)
  | bool b => exact absurd h (by simp)
  | num t => exact absurd h (by simp)
  | str s => exact absurd h (by simp)
  | arr a => exact absurd h (by simp)

theorem setAnexoOpt_anexo (j : Json) (pdf : Str) (j' : Json)
    (h : setAnexoOpt j pdf = some j') :
    dictGet j' "anexo_contrato".toList = some (Json.str (s3Url pdf)) := by
  unfold setAnexoOpt at h
  cases j with
  | obj l =>
    simp only [Option.some.injEq] at h
    subst h
    exact lookupA_setAssoc l _ _
  | null => exact absurd h (by simp)
  | bool b => exact absurd h (by simp)
  | num t => exact absurd h (by simp)
  | str s => exact absurd h (by simp)
  | arr a => exact absurd h (by simp)

theorem fallbackJson_anexo (cleaned pdf : Str) :
    dictGet (fallbackJson cleaned pdf) "anexo_contrato".toList
      = some (Json.str (s3Url pdf)) := rfl

theorem analyzeStage2_anexo (cleaned pdf : Str) (j : Json)
    (h : analyzeStage2 cleaned pdf = some j) :
    dictGet j "anexo_contrato".toList = some (Json.str (s3Url pdf)) := by
  unfold analyzeStage2 at h
  split at h
  · exact fixAnexoOpt_anexo _ _ _ h
  · split at h
    · exact fixAnexoOpt_anexo _ _ _ h
    · simp only [Option.some.injEq] at h
      subst h
      exact fallbackJson_anexo cleaned pdf

/-- C1: the attachment URL field of every result is the one computed from
the source PDF filename, never the model-supplied one: every object
returned by `analyze_with_gemini` and every object returned by
`try_repair_truncated_json` carries `s3://compras-ia-np/Contratos/<filename>`
in `anexo_contrato`, and the script built by `generate_sql_script` is
independent of the `url_pdf_s3` value found on the input contract (it is
overwritten with the URL computed from the filename before being used). -/
theorem attachment_url_always_recomputed :
    (∀ raw pdf j, analyze_with_gemini raw pdf = some j →
        dictGet j "anexo_contrato".toList = some (Json.str (s3Url pdf))) ∧
    (∀ raw pdf j, try_repair_truncated_json raw pdf = some j →
        dictGet j "anexo_contrato".toList = some (Json.str (s3Url pdf))) ∧
    (∀ db c f v, generate_sql_script db { c with url_pdf_s3 := v } f
        = generate_sql_script db c f) := by
  refine ⟨?_, ?_, ?_⟩
  · intro raw pdf j h
    unfold analyze_with_gemini at h
    split at h
    · exact absurd h (by simp)
    · split at h
      · exact absurd h (by simp)
      · split at h
        · split at h
          · exact fixAnexoOpt_anexo _ _ _ h
          · exact analyzeStage2_anexo _ _ _ h
        · exact analyzeStage2_anexo _ _ _ h
  · intro raw pdf j h
    unfold try_repair_truncated_json at h
    split at h
    · exact setAnexoOpt_anexo _ _ _ h
    · split at h
      · exact absurd h (by simp)
      · split at h
        · exact setAnexoOpt_anexo _ _ _ h
        · exact absurd h (by simp)
  · intro db c f v
    cases c
    rfl

/-- A model response wrapped in a tagged fence whose payload carries a wrong
attachment URL. -/
def sampleRawWrongAnexo : Str :=
  "```json\n\x7b\"numero_contrato\":\"7\",\"anexo_contrato\":\"WRONG\"\x7d\n```".toList

/-- A truncated model response missing one closing brace. -/
def sampleRawTruncated : Str := "\x7b\"a\":\x7b\"b\":\"c\"\x7d".toList

/-- A closed instance of the C1 theorem on concrete inputs: the analysis
result overwrites a wrong model-supplied URL, the repair result forces the
URL onto a repaired object, and the generated script ignores a wrong URL on
the input contract. -/
theorem attachment_url_always_recomputed_witness :
    dictGet (Json.obj [("numero_contrato".toList, Json.str "7".toList),
        ("anexo_contrato".toList,
          Json.str "s3://compras-ia-np/Contratos/doc.pdf".toList)])
        "anexo_contrato".toList
      = some (Json.str (s3Url "doc.pdf".toList)) ∧
    dictGet (Json.obj [("a".toList, Json.obj [("b".toList, Json.str "c".toList)]),
        ("anexo_contrato".toList,
          Json.str "s3://compras-ia-np/Contratos/doc.pdf".toList)])
        "anexo_contrato".toList
      = some (Json.str (s3Url "doc.pdf".toList)) ∧
    generate_sql_script sampleDB { sampleContrato with url_pdf_s3 := some "WRONG".toList }
        "doc".toList
      = generate_sql_script sampleDB sampleContrato "doc".toList :=
  ⟨attachment_url_always_recomputed.1 sampleRawWrongAnexo "doc.pdf".toList _ rfl,
   attachment_url_always_recomputed.2.1 sampleRawTruncated "doc.pdf".toList _ rfl,
   attachment_url_always_recomputed.2.2 sampleDB sampleContrato "doc".toList
     (some "WRONG".toList)⟩

/-! ## Claim C5: structured fallback when every parse strategy fails -/

/-- C5: on a normalized non-empty response on which all three parse
strategies fail (the regex-span parse, the suffix scan from each opening
brace, and the full-text parse), `analyze_with_gemini` does not raise but
returns the structured fallback object, whose `status_extracao` is Falha,
whose `resposta_modelo` diagnostic payload is the first 1000 characters of
the cleaned text (with a `...` marker when the text was longer), and whose
`anexo_contrato` is the deterministic attachment URL. -/
theorem analyze_with_gemini_fallback_on_total_failure (raw pdf : Str)
    (hraw : pystrip raw ≠ [])
    (hcl : normalizeResponse raw ≠ [])
    (h1 : ∀ s, findSpan (normalizeResponse raw) = some s →
      pyJsonParse (pystrip s) = none)
    (h2 : suffixScan (normalizeResponse raw) = none)
    (h3 : pyJsonParse (normalizeResponse raw) = none) :
    analyze_with_gemini raw pdf = some (fallbackJson (normalizeResponse raw) pdf) ∧
    dictGet (fallbackJson (normalizeResponse raw) pdf) "status_extracao".toList
      = some (Json.str "Falha".toList) ∧
    dictGet (fallbackJson (normalizeResponse raw) pdf) "resposta_modelo".toList
      = some (Json.str ((normalizeResponse raw).take 1000 ++
          (if 1000 < (normalizeResponse raw).length then "...".toList else []))) ∧
    dictGet (fallbackJson (normalizeResponse raw) pdf) "anexo_contrato".toList
      = some (Json.str (s3Url pdf)) := by
  have hstage : analyzeStage2 (normalizeResponse raw) pdf
      = some (fallbackJson (normalizeResponse raw) pdf) := by
    unfold analyzeStage2
    rw [h2, h3]
  refine ⟨?_, rfl, rfl, rfl⟩
  unfold analyze_with_gemini
  rw [if_neg hraw, if_neg hcl]
  cases hs : findSpan (normalizeResponse raw) with
  | none => exact hstage
  | some s =>
    simp only [h1 s hs]
    exact hstage

/-- A closed instance of the C5 theorem: prose with no JSON at all yields
the fallback object with its three required fields. -/
theorem analyze_with_gemini_fallback_witness :
    analyze_with_gemini "no json here".toList "doc.pdf".toList
      = some (fallbackJson (normalizeResponse "no json here".toList) "doc.pdf".toList) ∧
    dictGet (fallbackJson (normalizeResponse "no json here".toList) "doc.pdf".toList)
        "status_extracao".toList = some (Json.str "Falha".toList) ∧
    dictGet (fallbackJson (normalizeResponse "no json here".toList) "doc.pdf".toList)
        "resposta_modelo".toList
      = some (Json.str ((normalizeResponse "no json here".toList).take 1000 ++
          (if 1000 < (normalizeResponse "no json here".toList).length
            then "...".toList else []))) ∧
    dictGet (fallbackJson (normalizeResponse "no json here".toList) "doc.pdf".toList)
        "anexo_contrato".toList
      = some (Json.str (s3Url "doc.pdf".toList)) :=
  analyze_with_gemini_fallback_on_total_failure "no json here".toList "doc.pdf".toList
    (by decide) (by decide)
    (by
      intro s hs
      rw [show findSpan (normalizeResponse "no json here".toList) = none from rfl] at hs
      exact Option.noConfusion hs)
    rfl rfl

/-! ## Claim C7: the dangling-property "Parcial" repair -/

/-- C7: the claim expects a text ending mid-property with a dangling
`,"key":` to be completed with the placeholder string `"Parcial"` and
recovered as a valid object.  On the code this cannot happen: such a
truncated text has unmatched opening braces, the brace-balancing step (line
1445) appends the missing closing braces first, after which the text no
longer ends with the dangling `,"key":`, so the `"Parcial"` branch (lines
1450-1451) never fires and the final parse fails — the repair returns None
(first conjunct).  Even in the contrived balanced-braces case where
`' "Parcial"'` is appended, the resulting text is not valid JSON and the
repair still returns None (second conjunct). -/
theorem try_repair_dangling_key_returns_none :
    try_repair_truncated_json
        "\x7b\"numero_contrato\":\"1\",\"data_celebracao\":".toList
        "doc.pdf".toList = none ∧
    try_repair_truncated_json "\x7b\"a\":\"b\"\x7d,\"key\":".toList
        "doc.pdf".toList = none :=
  ⟨rfl, rfl⟩

/-! ## Claim C9: ContractParser.parse never raises (shape caveats) -/

theorem exceptOkBind {ε α β : Type} (a : α) (f : α → Except ε β) :
    (Except.ok a >>= f : Except ε β) = f a := rfl

/-- On a dict-shaped item, the item mapping succeeds and fills each field
from the payload with the source defaults. -/
theorem parseItem_obj (m : List (Str × Json)) :
    ContractParser.parseItem (Json.obj m)
      = .ok ⟨(lookupA m "descricao".toList).getD (Json.str []),
          (lookupA m "especificacao".toList).getD Json.null,
          (lookupA m "unidade_medida".toList).getD Json.null,
          (lookupA m "quantidade".toList).getD Json.null,
          (lookupA m "valor_unitario".toList).getD Json.null,
          (lookupA m "valor_total".toList).getD Json.null,
          (lookupA m "catmat_catser".toList).getD Json.null,
          (lookupA m "tipo".toList).getD (Json.str "Material".toList),
          (lookupA m "locais_execucao_entrega".toList).getD Json.null⟩ := rfl

/-- Reduction of `parseData` on a dict payload once the two substructures
resolve to dicts and the item iteration and mapping succeed. -/
theorem parseData_obj_ok (l ocm ecm : List (Str × Json)) (es : List Json) (its : List ItemJ)
    (hoc : pyOr ((lookupA l "orgao_contratante".toList).getD Json.null) (Json.obj [])
      = Json.obj ocm)
    (hec : pyOr ((lookupA l "empresa_contratada".toList).getD Json.null) (Json.obj [])
      = Json.obj ecm)
    (hit : pyIterElems ((lookupA l "itens".toList).getD (Json.arr [])) = Except.ok es)
    (hmap : es.mapM ContractParser.parseItem = Except.ok its) :
    ContractParser.parseData (Json.obj l)
      = .ok ⟨(lookupA l "numero_contrato".toList).getD (Json.str []),
          (lookupA l "tipo_instrumento".toList).getD (Json.str "Contrato".toList),
          (lookupA l "processo_administrativo".toList).getD Json.null,
          (lookupA l "data_celebracao".toList).getD Json.null,
          (lookupA l "fonte_preco".toList).getD (Json.str "Contrato".toList),
          (lookupA l "referencia_contrato".toList).getD Json.null,
          (lookupA l "url_pdf_s3".toList).getD Json.null,
          (lookupA l "status_extracao".toList).getD (Json.str "Sucesso".toList),
          ⟨(lookupA ocm "razao_social".toList).getD (Json.str []),
           (lookupA ocm "sigla".toList).getD Json.null,
           (lookupA ocm "cnpj".toList).getD (Json.str [])⟩,
          ⟨(lookupA ecm "razao_social".toList).getD (Json.str []),
           (lookupA ecm "cnpj".toList).getD (Json.str [])⟩,
          its⟩ := by
  unfold ContractParser.parseData
  simp only [pyGetJ, exceptOkBind, hoc, hec, pyGetD, hit, hmap]

theorem mapM_parseItem_ok (es : List Json) (h : ∀ e ∈ es, ∃ m, e = Json.obj m) :
    ∃ its, es.mapM ContractParser.parseItem = Except.ok its := by
  induction es with
  | nil => exact ⟨[], rfl⟩
  | cons e t ih =>
    obtain ⟨m, hm⟩ := h e (List.mem_cons_self e t)
    obtain ⟨its, hits⟩ := ih (fun x hx => h x (List.mem_cons_of_mem e hx))
    subst hm
    apply Exists.intro
    rw [List.mapM_cons, parseItem_obj, exceptOkBind, hits]
    rfl

/-- C9 counterexample: on the JSON object `{"orgao_contratante": "x"}` the
parser evaluates `("x" or {}).get("razao_social", "")`; the string `"x"` is
truthy, so `.get` is called on a non-dict and Python raises
`AttributeError` — `ContractParser.parse` does not return a Contract, and
the claim fails as stated for this JSON object input. -/
theorem contract_parser_raises_on_nondict_orgao :
    ContractParser.parse "\x7b\"orgao_contratante\":\"x\"\x7d".toList
      = Except.error "AttributeError".toList := rfl

/-- C9 (amended): for every JSON object input whose orgao_contratante and
empresa_contratada fields are each absent, falsy (e.g. null), or JSON
objects, and whose itens field is absent or an array of JSON objects,
`ContractParser.parse` returns a Contract without raising; missing optional
fields map to the documented defaults (empty string / null), a missing
orgao_contratante or empresa_contratada yields an object with empty-string
fields, a missing itens array yields an empty item list, and a missing
"tipo" on an item defaults to "Material". -/
theorem contract_parser_total_on_shaped_objects (l : List (Str × Json))
    (hoc : lookupA l "orgao_contratante".toList = none ∨
      (∃ x, lookupA l "orgao_contratante".toList = some x ∧ jsonTruthy x = false) ∨
      (∃ m, lookupA l "orgao_contratante".toList = some (Json.obj m)))
    (hec : lookupA l "empresa_contratada".toList = none ∨
      (∃ x, lookupA l "empresa_contratada".toList = some x ∧ jsonTruthy x = false) ∨
      (∃ m, lookupA l "empresa_contratada".toList = some (Json.obj m)))
    (hit : lookupA l "itens".toList = none ∨
      (∃ es, lookupA l "itens".toList = some (Json.arr es) ∧
        ∀ e ∈ es, ∃ m, e = Json.obj m)) :
    (∃ c, ContractParser.parseData (Json.obj l) = Except.ok c ∧
      (lookupA l "orgao_contratante".toList = none →
        c.orgao_contratante = ⟨Json.str [], Json.null, Json.str []⟩) ∧
      (lookupA l "empresa_contratada".toList = none →
        c.empresa_contratada = ⟨Json.str [], Json.str []⟩) ∧
      (lookupA l "itens".toList = none → c.itens = []) ∧
      (lookupA l "numero_contrato".toList = none → c.numero_contrato = Json.str []) ∧
      (lookupA l "processo_administrativo".toList = none →
        c.processo_administrativo = Json.null)) ∧
    (∀ m, lookupA m "tipo".toList = none →
      ∃ it, ContractParser.parseItem (Json.obj m) = Except.ok it ∧
        it.tipo = Json.str "Material".toList) := by
  constructor
  · have HOC : ∃ ocm, (pyOr ((lookupA l "orgao_contratante".toList).getD Json.null)
        (Json.obj []) = Json.obj ocm) ∧
        (lookupA l "orgao_contratante".toList = none → ocm = []) := by
      rcases hoc with h | ⟨x, hx, hfx⟩ | ⟨m, hm⟩
      · exact ⟨[], by rw [h]; rfl, fun _ => rfl⟩
      · exact ⟨[], by rw [hx]; simp [pyOr, hfx], fun _ => rfl⟩
      · by_cases ht : jsonTruthy (Json.obj m)
        · refine ⟨m, by rw [hm]; simp [pyOr, ht], fun hnone => ?_⟩
          rw [hnone] at hm
          exact Option.noConfusion hm
        · exact ⟨[], by rw [hm]; simp [pyOr, ht], fun _ => rfl⟩
    have HEC : ∃ ecm, (pyOr ((lookupA l "empresa_contratada".toList).getD Json.null)
        (Json.obj []) = Json.obj ecm) ∧
        (lookupA l "empresa_contratada".toList = none → ecm = []) := by
      rcases hec with h | ⟨x, hx, hfx⟩ | ⟨m, hm⟩
      · exact ⟨[], by rw [h]; rfl, fun _ => rfl⟩
      · exact ⟨[], by rw [hx]; simp [pyOr, hfx], fun _ => rfl⟩
      · by_cases ht : jsonTruthy (Json.obj m)
        · refine ⟨m, by rw [hm]; simp [pyOr, ht], fun hnone => ?_⟩
          rw [hnone] at hm
          exact Option.noConfusion hm
        · exact ⟨[], by rw [hm]; simp [pyOr, ht], fun _ => rfl⟩
    have HIT : ∃ es its, pyIterElems ((lookupA l "itens".toList).getD (Json.arr []))
        = Except.ok es ∧ es.mapM ContractParser.parseItem = Except.ok its ∧
        (lookupA l "itens".toList = none → its = []) := by
      rcases hit with h | ⟨es, hes, hall⟩
      · exact ⟨[], [], by rw [h]; rfl, rfl, fun _ => rfl⟩
      · obtain ⟨its, hits⟩ := mapM_parseItem_ok es hall
        refine ⟨es, its, by rw [hes]; rfl, hits, fun hnone => ?_⟩
        rw [hnone] at hes
        exact Option.noConfusion hes
    obtain ⟨ocm, hocm, hocn⟩ := HOC
    obtain ⟨ecm, hecm, hecn⟩ := HEC
    obtain ⟨es, its, hites, hmap, hitn⟩ := HIT
    refine ⟨_, parseData_obj_ok l ocm ecm es its hocm hecm hites hmap,
      ?_, ?_, ?_, ?_, ?_⟩
    · intro h
      rw [hocn h]
      rfl
    · intro h
      rw [hecn h]
      rfl
    · intro h
      exact hitn h
    · intro h
      simp only [h]
      rfl
    · intro h
      simp only [h]
      rfl
  · intro m hm
    refine ⟨_, parseItem_obj m, ?_⟩
    simp only [hm]
    rfl

/-- A closed instance of the amended C9 theorem at the empty JSON object:
every default fires. -/
theorem contract_parser_total_on_shaped_objects_witness :
    (∃ c, ContractParser.parseData (Json.obj []) = Except.ok c ∧
      (lookupA [] "orgao_contratante".toList = none →
        c.orgao_contratante = ⟨Json.str [], Json.null, Json.str []⟩) ∧
      (lookupA [] "empresa_contratada".toList = none →
        c.empresa_contratada = ⟨Json.str [], Json.str []⟩) ∧
      (lookupA [] "itens".toList = none → c.itens = []) ∧
      (lookupA [] "numero_contrato".toList = none → c.numero_contrato = Json.str []) ∧
      (lookupA [] "processo_administrativo".toList = none →
        c.processo_administrativo = Json.null)) ∧
    (∀ m, lookupA m "tipo".toList = none →
      ∃ it, ContractParser.parseItem (Json.obj m) = Except.ok it ∧
        it.tipo = Json.str "Material".toList) :=
  contract_parser_total_on_shaped_objects [] (Or.inl rfl) (Or.inl rfl) (Or.inl rfl)

/-! ## String-occurrence machinery (used by claims C6 and C8) -/

theorem prefix_append_cases {p x y : Str} (h : p <+: x ++ y) :
    p <+: x ∨ ∃ p2, p = x ++ p2 ∧ p2 <+: y := by
  by_cases hl : p.length ≤ x.length
  · exact Or.inl (List.prefix_of_prefix_length_le h (List.prefix_append x y) hl)
  · right
    have hx : x <+: p :=
      List.prefix_of_prefix_length_le (List.prefix_append x y) h (by omega)
    obtain ⟨p2, hp2⟩ := hx
    refine ⟨p2, hp2.symm, ?_⟩
    obtain ⟨r, hr⟩ := h
    rw [← hp2, List.append_assoc] at hr
    have := List.append_cancel_left hr
    exact ⟨r, this⟩

theorem infix_append_cases {p x y : Str} (h : p <:+: x ++ y) :
    p <:+: x ∨ p <:+: y ∨
      ∃ p1 p2, p = p1 ++ p2 ∧ p1 ≠ [] ∧ p2 ≠ [] ∧ p1 <:+ x ∧ p2 <+: y := by
  induction x with
  | nil =>
    right; left
    simpa using h
  | cons c x' ih =>
    rcases List.infix_cons_iff.mp (by simpa using h) with hpre | hinf
    · rcases prefix_append_cases (x := c :: x') (y := y) (by simpa using hpre)
        with h1 | ⟨p2, hp2, hpre2⟩
      · exact Or.inl h1.isInfix
      · rcases eq_or_ne p2 [] with h2 | h2
        · subst h2
          rw [List.append_nil] at hp2
          subst hp2
          exact Or.inl (List.infix_refl _)
        · exact Or.inr (Or.inr ⟨c :: x', p2, hp2, by simp, h2,
            List.suffix_refl _, hpre2⟩)
    · rcases ih hinf with h1 | h2 | ⟨p1, p2, hp, h1ne, h2ne, h1s, h2p⟩
      · exact Or.inl (List.infix_cons h1)
      · exact Or.inr (Or.inl h2)
      · exact Or.inr (Or.inr ⟨p1, p2, hp, h1ne, h2ne,
          h1s.trans (List.suffix_cons c x'), h2p⟩)

theorem hasSub_iff_occurs (hay pat : Str) : hasSub hay pat = true ↔ pat <:+: hay := by
  induction hay with
  | nil =>
    unfold hasSub
    simp [List.isPrefixOf_iff_prefix, List.prefix_nil, List.infix_nil]
  | cons c t ih =>
    unfold hasSub
    rw [Bool.or_eq_true, List.isPrefixOf_iff_prefix, ih, List.infix_cons_iff]

theorem not_infix_of_hasSub_false {hay pat : Str} (h : hasSub hay pat = false) :
    ¬ pat <:+: hay := by
  intro hi
  rw [← hasSub_iff_occurs] at hi
  rw [h] at hi
  exact Bool.noConfusion hi

theorem not_infix_append {p x y : Str}
    (hx : ¬ p <:+: x) (hy : ¬ p <:+: y)
    (hcross : ∀ n, 1 ≤ n → n < p.length → ¬(p.take n <:+ x ∧ p.drop n <+: y)) :
    ¬ p <:+: x ++ y := by
  intro h
  rcases infix_append_cases h with h1 | h2 | ⟨p1, p2, hp, h1ne, h2ne, h1s, h2p⟩
  · exact hx h1
  · exact hy h2
  · have hl : p1 = p.take p1.length := by rw [hp, List.take_left]
    have hr : p2 = p.drop p1.length := by rw [hp, List.drop_left]
    have hn1 : 1 ≤ p1.length := List.length_pos.mpr h1ne
    have hn2 : p1.length < p.length := by
      rw [hp, List.length_append]
      have := List.length_pos.mpr h2ne
      omega
    exact hcross p1.length hn1 hn2 ⟨hl ▸ h1s, hr ▸ h2p⟩

/-- Every character of `natReprF` output is a decimal digit. -/
theorem natReprF_digits (fuel : Nat) : ∀ n c, c ∈ natReprF fuel n → c.isDigit = true := by
  induction fuel with
  | zero =>
    intro n c hc
    simp [natReprF] at hc
  | succ fuel ih =>
    intro n c hc
    unfold natReprF at hc
    split at hc
    · rename_i h
      interval_cases n <;> simp_all [digitChar]
    · rcases List.mem_append.mp hc with h1 | h2
      · exact ih _ _ h1
      · have h10 : n % 10 < 10 := Nat.mod_lt _ (by omega)
        rcases List.mem_singleton.mp h2 with rfl
        interval_cases h : n % 10 <;> simp_all [digitChar]

theorem replaceAllF_fuel_irrel (pat repl : Str) :
    ∀ f1 f2 l, l.length ≤ f1 → l.length ≤ f2 →
      replaceAllF f1 l pat repl = replaceAllF f2 l pat repl := by
  intro f1
  induction f1 with
  | zero =>
    intro f2 l h1 h2
    have : l = [] := List.eq_nil_of_length_eq_zero (by omega)
    subst this
    cases f2 <;> rfl
  | succ f1 ih =>
    intro f2 l h1 h2
    match l with
    | [] => cases f2 <;> rfl
    | c :: t =>
      match f2 with
      | f2 + 1 =>
        simp only [replaceAllF]
        by_cases hpre : pat ≠ [] ∧ pat.isPrefixOf (c :: t)
        · rw [if_pos hpre, if_pos hpre]
          have hp : 0 < pat.length := List.length_pos.mpr hpre.1
          simp only [List.length_cons] at h1 h2
          have hlen : ((c :: t).drop pat.length).length ≤ f1 := by
            simp only [List.length_drop, List.length_cons]
            omega
          have hlen2 : ((c :: t).drop pat.length).length ≤ f2 := by
            simp only [List.length_drop, List.length_cons]
            omega
          rw [ih f2 _ hlen hlen2]
        · rw [if_neg hpre, if_neg hpre]
          simp only [List.length_cons] at h1 h2
          rw [ih f2 t (by omega) (by omega)]

theorem replaceAll_cons_eq (c : Char) (t pat repl : Str) :
    replaceAll (c :: t) pat repl
      = if pat ≠ [] ∧ pat.isPrefixOf (c :: t)
        then repl ++ replaceAll ((c :: t).drop pat.length) pat repl
        else c :: replaceAll t pat repl := by
  unfold replaceAll
  rw [List.length_cons]
  simp only [replaceAllF]
  by_cases hpre : pat ≠ [] ∧ pat.isPrefixOf (c :: t)
  · rw [if_pos hpre, if_pos hpre]
    have hp : 0 < pat.length := List.length_pos.mpr hpre.1
    rw [replaceAllF_fuel_irrel pat repl t.length ((c :: t).drop pat.length).length
      ((c :: t).drop pat.length) (by simp only [List.length_drop, List.length_cons]; omega)
      (Nat.le_refl _)]
  · rw [if_neg hpre, if_neg hpre]

theorem replaceAll_no_occurrence (l pat repl : Str) (h : ¬ pat <:+: l) :
    replaceAll l pat repl = l := by
  induction l with
  | nil => rfl
  | cons c t ih =>
    rw [replaceAll_cons_eq]
    rw [if_neg ?hneg]
    case hneg =>
      intro hc
      exact h (List.isPrefixOf_iff_prefix.mp hc.2).isInfix
    rw [ih (fun hi => h (List.infix_cons hi))]

/-! ## Whitespace-strip lemmas -/

theorem stripL_cons_ws {c : Char} (h : isWsChar c = true) (l : Str) :
    stripL (c :: l) = stripL l := by
  simp [stripL, List.dropWhile_cons, h]

theorem stripR_append_ws {c : Char} (h : isWsChar c = true) (l : Str) :
    stripR (l ++ [c]) = stripR l := by
  simp [stripR, List.dropWhile_cons, h]

theorem stripR_prefix_self (l : Str) : stripR l <+: l := by
  have hs : (l.reverse.dropWhile isWsChar) <:+ l.reverse := List.dropWhile_suffix _
  have := List.reverse_prefix.mpr hs
  rwa [List.reverse_reverse] at this

theorem stripL_eq_self_mono {u m : Str} (hu : stripL u = u) (hm : m <+: u) :
    stripL m = m := by
  cases m with
  | nil => rfl
  | cons a t =>
    obtain ⟨r, hr⟩ := hm
    have ha : isWsChar a = false := by
      by_contra hws
      rw [Bool.not_eq_false] at hws
      rw [← hr] at hu
      rw [show stripL ((a :: t) ++ r) = stripL (t ++ r) by
        simp [stripL, List.dropWhile_cons, hws]] at hu
      have h1 : (stripL (t ++ r)).length ≤ (t ++ r).length :=
        (List.dropWhile_suffix _).length_le
      rw [hu] at h1
      simp at h1
    simp [stripL, List.dropWhile_cons, ha]

theorem stripR_idem (l : Str) : stripR (stripR l) = stripR l := by
  unfold stripR
  rw [List.reverse_reverse, List.dropWhile_idempotent]

theorem pystrip_idem (l : Str) : pystrip (pystrip l) = pystrip l := by
  unfold pystrip
  have hu : stripL (stripL l) = stripL l := List.dropWhile_idempotent _ _
  have h1 : stripL (stripR (stripL l)) = stripR (stripL l) :=
    stripL_eq_self_mono hu (stripR_prefix_self _)
  rw [h1, stripR_idem]

theorem pyJsonParse_pystrip (l : Str) : pyJsonParse (pystrip l) = pyJsonParse l := by
  unfold pyJsonParse
  rw [pystrip_idem]

theorem pystrip_ws_sandwich (X : Str) : pystrip ('\n' :: (X ++ ['\n'])) = pystrip X := by
  unfold pystrip
  rw [stripL_cons_ws (by decide)]
  rw [show stripL (X ++ ['\n'])
      = if (stripL X).isEmpty then stripL ['\n'] else stripL X ++ ['\n']
    from List.dropWhile_append]
  by_cases he : (stripL X).isEmpty
  · rw [if_pos he]
    rw [List.isEmpty_iff] at he
    rw [he]
    rfl
  · rw [if_neg he]
    exact stripR_append_ws (by decide) _

theorem stripL_closed_append (A X : Str)
    (h : (match A.head? with | some a => !isWsChar a | none => false) = true) :
    stripL (A ++ X) = A ++ X := by
  cases A with
  | nil => simp at h
  | cons a t =>
    simp only [List.head?, Bool.not_eq_true'] at h
    simp [stripL, List.cons_append, List.dropWhile_cons, h]

theorem stripR_closed_append (X A : Str)
    (h : (match A.getLast? with | some a => !isWsChar a | none => false) = true) :
    stripR (X ++ A) = X ++ A := by
  cases hA : A.reverse with
  | nil =>
    rw [List.reverse_eq_nil_iff] at hA
    subst hA
    simp at h
  | cons a t =>
    have hAeq : A = (a :: t).reverse := by rw [← hA, List.reverse_reverse]
    have hlast : A.getLast? = some a := by
      rw [← List.head?_reverse, hA]
      rfl
    rw [hlast] at h
    simp only [Bool.not_eq_true'] at h
    unfold stripR
    rw [List.reverse_append, hA]
    simp [List.dropWhile_cons, h, hAeq]

theorem pystrip_closed_sandwich (A X B : Str)
    (hA : (match A.head? with | some a => !isWsChar a | none => false) = true)
    (hB : (match B.getLast? with | some a => !isWsChar a | none => false) = true) :
    pystrip (A ++ X ++ B) = A ++ X ++ B := by
  unfold pystrip
  rw [List.append_assoc, stripL_closed_append A (X ++ B) hA, ← List.append_assoc,
      stripR_closed_append (A ++ X) B hB]

theorem replaceAll_prefix_match (pat rest repl : Str) (hp : pat ≠ []) :
    replaceAll (pat ++ rest) pat repl = repl ++ replaceAll rest pat repl := by
  cases pat with
  | nil => simp at hp
  | cons a pp =>
    rw [List.cons_append, replaceAll_cons_eq]
    rw [if_pos ⟨by simp, List.isPrefixOf_iff_prefix.mpr
      (by rw [← List.cons_append]; exact List.prefix_append _ rest)⟩]
    rw [← List.cons_append, List.drop_left]

/-! ## Claim C8: normalization of fenced JSON -/

/-- No fence occurrence in a newline-sandwiched text whose core has none. -/
theorem fence_not_infix_sandwich (s : Str) (hnf : ¬ fenceMarker <:+: s) :
    ¬ fenceMarker <:+: '\n' :: (s ++ ['\n']) := by
  have hx : ¬ fenceMarker <:+: ['\n'] ++ s := by
    apply not_infix_append (not_infix_of_hasSub_false (by decide)) hnf
    intro n h1 h2 hc
    have h3 := List.isSuffixOf_iff_suffix.mpr hc.1
    have h2n : n < 3 := by simpa [fenceMarker] using h2
    interval_cases n
    · exact absurd h3 (by decide)
    · exact absurd h3 (by decide)
  have hy : ¬ fenceMarker <:+: (['\n'] ++ s) ++ ['\n'] := by
    apply not_infix_append hx (not_infix_of_hasSub_false (by decide))
    intro n h1 h2 hc
    have h3 := List.isPrefixOf_iff_prefix.mpr hc.2
    have h2n : n < 3 := by simpa [fenceMarker] using h2
    interval_cases n
    · exact absurd h3 (by decide)
    · exact absurd h3 (by decide)
  simpa using hy

theorem normStep1_wrapTagged (s : Str) :
    normStep1 ("```json\n".toList ++ s ++ "\n```".toList)
      = ('\n' :: (s ++ ['\n'])) ++ fenceMarker := by
  unfold normStep1
  rw [if_pos (show "```json".toList.isPrefixOf
    ("```json\n".toList ++ s ++ "\n```".toList) = true from by
      rw [List.isPrefixOf_iff_prefix]
      exact ⟨'\n' :: (s ++ "\n```".toList), by simp⟩)]
  simp [fenceMarker]

theorem normStep2_fence_tail (A : Str) :
    normStep2 (A ++ fenceMarker) = A := by
  unfold normStep2
  rw [if_pos (List.isSuffixOf_iff_suffix.mpr ⟨A, rfl⟩)]
  rw [show (A ++ fenceMarker).length - 3 = A.length from by simp [fenceMarker]]
  rw [List.take_left]

/-- Normalization of a json-tagged fenced payload containing no fence
marker yields the stripped payload. -/
theorem normalize_wrapTagged (s : Str) (hnf : ¬ fenceMarker <:+: s) :
    normalizeResponse ("```json\n".toList ++ s ++ "\n```".toList) = pystrip s := by
  unfold normalizeResponse
  rw [pystrip_closed_sandwich "```json\n".toList s "\n```".toList (by decide) (by decide)]
  rw [normStep1_wrapTagged, normStep2_fence_tail]
  rw [replaceAll_no_occurrence _ _ _ (fence_not_infix_sandwich s hnf)]
  exact pystrip_ws_sandwich s

theorem normStep1_wrapPlain (s : Str) :
    normStep1 ("```\n".toList ++ s ++ "\n```".toList)
      = "```\n".toList ++ s ++ "\n```".toList := by
  unfold normStep1
  rw [if_neg (show ¬ "```json".toList.isPrefixOf
    ("```\n".toList ++ s ++ "\n```".toList) = true from by
      intro hp
      rw [List.isPrefixOf_iff_prefix] at hp
      obtain ⟨r, hr⟩ := hp
      have := congrArg (fun l => l.get? 3) hr
      simp at this)]

/-- Normalization of an untagged fenced payload containing no fence marker
yields the stripped payload. -/
theorem normalize_wrapPlain (s : Str) (hnf : ¬ fenceMarker <:+: s) :
    normalizeResponse ("```\n".toList ++ s ++ "\n```".toList) = pystrip s := by
  unfold normalizeResponse
  rw [pystrip_closed_sandwich "```\n".toList s "\n```".toList (by decide) (by decide)]
  rw [normStep1_wrapPlain]
  rw [show "```\n".toList ++ s ++ "\n```".toList
      = (("```\n".toList ++ s ++ ['\n'])) ++ fenceMarker from by simp [fenceMarker]]
  rw [normStep2_fence_tail]
  rw [show "```\n".toList ++ s ++ ['\n'] = fenceMarker ++ ('\n' :: (s ++ ['\n']))
      from by simp [fenceMarker]]
  rw [replaceAll_prefix_match fenceMarker _ [] (by decide)]
  rw [replaceAll_no_occurrence _ _ _ (fence_not_infix_sandwich s hnf)]
  rw [List.nil_append]
  exact pystrip_ws_sandwich s

/-- C8 (amended): for well-formed JSON text containing no markdown fence
marker, normalization of the code-fence-wrapped text (leading fence,
optionally tagged json, and trailing fence) followed by a direct parse
reproduces exactly the object obtained by parsing the unwrapped text.  (The
no-fence proviso is forced: the normalizer deletes every remaining fence
marker from the payload, see the counterexample.) -/
theorem normalize_reproduces_fenced_json (s : Str) (j : Json)
    (hwf : pyJsonParse s = some j)
    (hnf : hasSub s fenceMarker = false) :
    pyJsonParse (normalizeResponse ("```json\n".toList ++ s ++ "\n```".toList)) = some j ∧
    pyJsonParse (normalizeResponse ("```\n".toList ++ s ++ "\n```".toList)) = some j := by
  have hni := not_infix_of_hasSub_false hnf
  constructor
  · rw [normalize_wrapTagged s hni, pyJsonParse_pystrip, hwf]
  · rw [normalize_wrapPlain s hni, pyJsonParse_pystrip, hwf]

/-- A closed instance of the amended C8 theorem on a small fenced object. -/
theorem normalize_reproduces_fenced_json_witness :
    pyJsonParse (normalizeResponse
        ("```json\n".toList ++ "\x7b\"a\": 1\x7d".toList ++ "\n```".toList))
      = some (Json.obj [("a".toList, Json.num ['1'])]) ∧
    pyJsonParse (normalizeResponse
        ("```\n".toList ++ "\x7b\"a\": 1\x7d".toList ++ "\n```".toList))
      = some (Json.obj [("a".toList, Json.num ['1'])]) :=
  normalize_reproduces_fenced_json "\x7b\"a\": 1\x7d".toList
    (Json.obj [("a".toList, Json.num ['1'])]) rfl (by decide)

/-- C8 counterexample: the JSON text carrying a triple backtick inside a
string value parses to an object whose field holds the backticks, but the
normalizer deletes every remaining fence marker, so normalizing the wrapped
text and parsing yields a different object — the claim fails as stated for
payloads containing the fence marker. -/
theorem normalize_fenced_json_counterexample :
    pyJsonParse "\x7b\"a\":\"```\"\x7d".toList
      = some (Json.obj [("a".toList, Json.str "```".toList)]) ∧
    pyJsonParse (normalizeResponse
        ("```json\n".toList ++ "\x7b\"a\":\"```\"\x7d".toList ++ "\n```".toList))
      = some (Json.obj [("a".toList, Json.str [])]) ∧
    pyJsonParse (normalizeResponse
        ("```json\n".toList ++ "\x7b\"a\":\"```\"\x7d".toList ++ "\n```".toList))
      ≠ pyJsonParse "\x7b\"a\":\"```\"\x7d".toList := by
  refine ⟨rfl, rfl, ?_⟩
  intro h
  rw [show pyJsonParse (normalizeResponse
        ("```json\n".toList ++ "\x7b\"a\":\"```\"\x7d".toList ++ "\n```".toList))
      = some (Json.obj [("a".toList, Json.str [])]) from rfl] at h
  rw [show pyJsonParse "\x7b\"a\":\"```\"\x7d".toList
      = some (Json.obj [("a".toList, Json.str "```".toList)]) from rfl] at h
  have hj := Option.some.inj h
  have h2 : (some (Json.str []) : Option Json) = some (Json.str "```".toList) :=
    congrArg (fun x => dictGet x "a".toList) hj
  have h3 := Option.some.inj h2
  injection h3 with h4
  exact absurd h4 (by decide)

/-! ## Claim C6: comment-only scripts for the no-op cases -/

def insertPat : Str := "INSERT".toList

def noCrossRight (p y : Str) : Bool :=
  (List.range p.length).all (fun n => n == 0 || !((p.drop n).isPrefixOf y))

def noCrossLeft (p x : Str) : Bool :=
  (List.range p.length).all (fun n => n == 0 || !((p.take n).isSuffixOf x))

theorem not_infix_append_right {p x y : Str} (hx : ¬ p <:+: x) (hy : ¬ p <:+: y)
    (h : noCrossRight p y = true) : ¬ p <:+: x ++ y := by
  apply not_infix_append hx hy
  intro n h1 h2 hc
  have hall := List.all_eq_true.mp h n (List.mem_range.mpr h2)
  rcases Bool.or_eq_true_iff.mp hall with h0 | hnp
  · have : n = 0 := by simpa using h0
    omega
  · rw [Bool.not_eq_true'] at hnp
    rw [← List.isPrefixOf_iff_prefix, hnp] at hc
    exact Bool.noConfusion hc.2

theorem not_infix_append_left {p x y : Str} (hx : ¬ p <:+: x) (hy : ¬ p <:+: y)
    (h : noCrossLeft p x = true) : ¬ p <:+: x ++ y := by
  apply not_infix_append hx hy
  intro n h1 h2 hc
  have hall := List.all_eq_true.mp h n (List.mem_range.mpr h2)
  rcases Bool.or_eq_true_iff.mp hall with h0 | hnp
  · have : n = 0 := by simpa using h0
    omega
  · rw [Bool.not_eq_true'] at hnp
    rw [← List.isSuffixOf_iff_suffix, hnp] at hc
    exact Bool.noConfusion hc.1

theorem hasSub_eq_false_of_not_infix {hay pat : Str} (h : ¬ pat <:+: hay) :
    hasSub hay pat = false := by
  rw [← Bool.not_eq_true, hasSub_iff_occurs]
  exact h

theorem not_insert_infix_digits (n : Nat) : ¬ insertPat <:+: natRepr n := by
  intro h
  have hm := h.subset (show 'I' ∈ insertPat from by decide)
  have hd := natReprF_digits (n + 1) n 'I' hm
  exact absurd hd (by decide)

theorem not_insert_infix_append_digits {x : Str} (n : Nat)
    (hx : ¬ insertPat <:+: x) : ¬ insertPat <:+: x ++ natRepr n := by
  apply not_infix_append hx (not_insert_infix_digits n)
  intro k h1 h2 hc
  have hd : ∀ c ∈ insertPat.drop k, c.isDigit = true := fun c hcm =>
    natReprF_digits (n + 1) n c (hc.2.subset hcm)
  have h2n : k < 6 := by simpa [insertPat] using h2
  interval_cases k
  · exact absurd (hd 'N' (by decide)) (by decide)
  · exact absurd (hd 'S' (by decide)) (by decide)
  · exact absurd (hd 'E' (by decide)) (by decide)
  · exact absurd (hd 'R' (by decide)) (by decide)
  · exact absurd (hd 'T' (by decide)) (by decide)

theorem no_insert_in_noValidItemsComment (f : Str) (hf : ¬ insertPat <:+: f) :
    ¬ insertPat <:+: noValidItemsComment f := by
  unfold noValidItemsComment
  apply not_infix_append_right (y := " não possui itens válidos. Nenhuma ação realizada.".toList)
  · exact not_infix_append_left (not_infix_of_hasSub_false (by decide)) hf (by decide)
  · exact not_infix_of_hasSub_false (by decide)
  · decide

theorem no_insert_in_scriptUrl (f : Str) (hf : ¬ insertPat <:+: f) :
    ¬ insertPat <:+: scriptUrl f := by
  have hpdf : ¬ insertPat <:+: scriptPdfFilename f := by
    unfold scriptPdfFilename
    split
    · exact not_infix_append_right hf (not_infix_of_hasSub_false (by decide)) (by decide)
    · exact hf
  unfold scriptUrl
  exact not_infix_append_left (not_infix_of_hasSub_false (by decide)) hpdf (by decide)

theorem no_insert_in_contractExistsComment (f : Str) (id : Nat)
    (hf : ¬ insertPat <:+: f) :
    ¬ insertPat <:+: contractExistsComment (scriptUrl f) id := by
  unfold contractExistsComment
  apply not_infix_append_right (y := "). Nenhuma ação realizada.".toList)
  · apply not_insert_infix_append_digits
    apply not_infix_append_right (y := "\x27 já existe no banco de dados (ID=".toList)
    · exact not_infix_append_left (not_infix_of_hasSub_false (by decide))
        (no_insert_in_scriptUrl f hf) (by decide)
    · exact not_infix_of_hasSub_false (by decide)
    · decide
  · exact not_infix_of_hasSub_false (by decide)
  · decide

theorem generate_sql_script_no_items (db : DB) (c : Contrato) (f : Str)
    (h : c.itens.filter
      (fun it => ContractRepository.is_valid_catmat_catser db it.catmat_catser) = []) :
    generate_sql_script db c f = noValidItemsComment f := by
  simp [generate_sql_script, h]

theorem generate_sql_script_existing (db : DB) (c : Contrato) (f : Str) (row : ContratoRow)
    (hne : c.itens.filter
      (fun it => ContractRepository.is_valid_catmat_catser db it.catmat_catser) ≠ [])
    (hfind : db.contratos.find? (fun r => r.url_pdf_s3 == some (scriptUrl f)) = some row) :
    generate_sql_script db c f = contractExistsComment (scriptUrl f) row.id := by
  simp only [generate_sql_script]
  rw [if_neg (by simpa [List.isEmpty_iff] using hne)]
  rw [hfind]

/-- C6: when zero items survive classification-code filtering, or a
contract row with the same url_pdf_s3 already exists, the returned script
is exactly the explanatory SQL comment for that case, and (as long as the
filename itself does not contain the text INSERT) the script contains no
INSERT statement at all. -/
theorem generate_sql_script_noop_cases (db : DB) (c : Contrato) (f : Str) :
    (c.itens.filter
        (fun it => ContractRepository.is_valid_catmat_catser db it.catmat_catser) = [] →
      generate_sql_script db c f = noValidItemsComment f ∧
      (hasSub f insertPat = false →
        hasSub (generate_sql_script db c f) insertPat = false)) ∧
    (∀ row, c.itens.filter
        (fun it => ContractRepository.is_valid_catmat_catser db it.catmat_catser) ≠ [] →
      db.contratos.find? (fun r => r.url_pdf_s3 == some (scriptUrl f)) = some row →
      generate_sql_script db c f = contractExistsComment (scriptUrl f) row.id ∧
      (hasSub f insertPat = false →
        hasSub (generate_sql_script db c f) insertPat = false)) := by
  constructor
  · intro h
    have he := generate_sql_script_no_items db c f h
    refine ⟨he, fun hf => ?_⟩
    rw [he]
    exact hasSub_eq_false_of_not_infix
      (no_insert_in_noValidItemsComment f (not_infix_of_hasSub_false hf))
  · intro row hne hfind
    have he := generate_sql_script_existing db c f row hne hfind
    refine ⟨he, fun hf => ?_⟩
    rw [he]
    exact hasSub_eq_false_of_not_infix
      (no_insert_in_contractExistsComment f row.id (not_infix_of_hasSub_false hf))

def sampleExistingRow : ContratoRow :=
  ⟨5, "N1".toList, "Contrato".toList, none, none, "Contrato".toList, none,
   some "s3://compras-ia-np/Contratos/doc.pdf".toList, "Sucesso".toList, 1, 1⟩

def sampleDBWithContrato : DB := { sampleDB with contratos := [sampleExistingRow] }

/-- A closed instance of the C6 theorem: both no-op branches on concrete
data produce their comment and are INSERT-free. -/
theorem generate_sql_script_noop_cases_witness :
    (generate_sql_script sampleDB { sampleContrato with itens := [sampleItemInvalid] }
        "doc.pdf".toList = noValidItemsComment "doc.pdf".toList ∧
      hasSub (generate_sql_script sampleDB
        { sampleContrato with itens := [sampleItemInvalid] } "doc.pdf".toList)
        insertPat = false) ∧
    (generate_sql_script sampleDBWithContrato sampleContrato "doc.pdf".toList
        = contractExistsComment (scriptUrl "doc.pdf".toList) sampleExistingRow.id ∧
      hasSub (generate_sql_script sampleDBWithContrato sampleContrato "doc.pdf".toList)
        insertPat = false) := by
  constructor
  · have h := (generate_sql_script_noop_cases sampleDB
      { sampleContrato with itens := [sampleItemInvalid] } "doc.pdf".toList).1 rfl
    exact ⟨h.1, h.2 (by decide)⟩
  · have h := (generate_sql_script_noop_cases sampleDBWithContrato sampleContrato
      "doc.pdf".toList).2 sampleExistingRow
      (by
        rw [show sampleContrato.itens.filter
          (fun it => ContractRepository.is_valid_catmat_catser sampleDBWithContrato
            it.catmat_catser) = [sampleItemValid] from rfl]
        simp)
      rfl
    exact ⟨h.1, h.2 (by decide)⟩
